import Mathlib

/-!
# Variations panel (`source/Variations.cpp`)

A shallow embedding of the "Variations" colour source: the per-slot variation
arithmetic of `calc`, the panel state (`VariationsArgs`), the toolkit state it
reads and writes through `gtk_color_get_color` / `gtk_color_set_color`, and the
settings store read at creation and written at teardown.

Conventions of the embedding:

* `float` / `double` values are exact rationals (`ℚ`); rounding is not modelled.
  The theorems therefore state which component is replaced by which expression,
  which widgets are written, and order facts of clamping; they state no identity
  that needs exact field arithmetic and no strict bound on a wrapped hue, since
  the rounded `x - floor x` of the program can be exactly `1`.
* A `GtkWidget*` is a natural number, `0` being the null pointer.  The colour a
  `GtkColor` widget holds lives in `Gtk.widget_color`; every call of
  `gtk_color_set_color` is also appended to `Gtk.set_log`.  The text label the
  call passes is not modelled.
* The colour conversions of the colour library (`color_rgb_to_hsl`, ...) are
  parameters, collected in `ColorLib`.
* An out-of-bounds array access makes a function return `none`.
-/

namespace Variations

/-! ## Constants and types -/

/-- Constant VAR_COLOR_WIDGETS of the source, defined as 8. -/
def VAR_COLOR_WIDGETS : Nat := 8

/-- Constant MAX_COLOR_LINES of the source, defined as 3. -/
def MAX_COLOR_LINES : Nat := 3

/-- Constant COMPONENT_ID_HSL_HUE of the source, defined as 1. -/
def COMPONENT_ID_HSL_HUE : Nat := 1

/-- Constant COMPONENT_ID_HSL_SATURATION of the source, defined as 2. -/
def COMPONENT_ID_HSL_SATURATION : Nat := 2

/-- Constant COMPONENT_ID_HSL_LIGHTNESS of the source, defined as 3. -/
def COMPONENT_ID_HSL_LIGHTNESS : Nat := 3

/-- Constant COMPONENT_ID_LAB_LIGHTNESS of the source, defined as 4. -/
def COMPONENT_ID_LAB_LIGHTNESS : Nat := 4

/-- The `Color` union of the colour library: three components, read as
`rgb.red/green/blue`, as `hsl.hue/saturation/lightness` or as `lab.L/a/b`
depending on the view.  The views share storage, so one structure with three
fields carries all of them. -/
structure Color where
  c0 : ℚ
  c1 : ℚ
  c2 : ℚ
  deriving DecidableEq, Repr

namespace Color

/-- View `hsl.hue`. -/
abbrev hue (c : Color) : ℚ := c.c0

/-- View `hsl.saturation`. -/
abbrev saturation (c : Color) : ℚ := c.c1

/-- View `hsl.lightness`. -/
abbrev lightness (c : Color) : ℚ := c.c2

/-- View `lab.L`. -/
abbrev L (c : Color) : ℚ := c.c0

/-- View `lab.a`. -/
abbrev a (c : Color) : ℚ := c.c1

/-- View `lab.b`. -/
abbrev b (c : Color) : ℚ := c.c2

end Color

/-- The `VariationType` record. -/
structure VariationType where
  name : String
  symbol : String
  unique_name : String
  component_id : Nat
  strength_mult : ℚ
  deriving DecidableEq, Repr

/-- Entry 0 of `variation_types[]`. -/
def type_hsl_hue : VariationType :=
  { name := "Hue", symbol := "H<span font='8' rise='8000'>HSL</span>",
    unique_name := "hsl_hue", component_id := COMPONENT_ID_HSL_HUE, strength_mult := 1 }

/-- Entry 1 of `variation_types[]`. -/
def type_hsl_saturation : VariationType :=
  { name := "Saturation", symbol := "S<span font='8' rise='8000'>HSL</span>",
    unique_name := "hsl_saturation", component_id := COMPONENT_ID_HSL_SATURATION,
    strength_mult := 1 }

/-- Entry 2 of `variation_types[]`. -/
def type_hsl_lightness : VariationType :=
  { name := "Lightness", symbol := "L<span font='8' rise='8000'>HSL</span>",
    unique_name := "hsl_lightness", component_id := COMPONENT_ID_HSL_LIGHTNESS,
    strength_mult := 1 }

/-- Entry 3 of `variation_types[]`. -/
def type_lab_lightness : VariationType :=
  { name := "Lightness (Lab)", symbol := "L<span font='8' rise='8000'>Lab</span>",
    unique_name := "lab_lightness", component_id := COMPONENT_ID_LAB_LIGHTNESS,
    strength_mult := 1 }

/-- The table `variation_types[]`. -/
def variation_types : List VariationType :=
  [type_hsl_hue, type_hsl_saturation, type_hsl_lightness, type_lab_lightness]

/-- The colour conversions `calc` calls; they are defined in the colour library,
outside this file, and are taken as parameters. -/
structure ColorLib where
  color_rgb_to_hsl : Color → Color
  color_hsl_to_rgb : Color → Color
  color_rgb_to_lab_d50 : Color → Color
  color_lab_to_rgb_d50 : Color → Color
  color_rgb_normalize : Color → Color

/-- Modelled from the spec: `wrap_float` of `MathUtil`, which is not part of the
sources at hand.  The spec asks for a map into the cyclic hue domain that wraps
rather than clamps: `x - floor x`, here in exact arithmetic. -/
def wrap_float (x : ℚ) : ℚ := x - (⌊x⌋ : ℤ)

/-- Modelled from the spec: `clamp_float` of `MathUtil`, which is not part of the
sources at hand: `clamp(x, a, b)` limits `x` to the interval `[a, b]`. -/
def clamp_float (x a b : ℚ) : ℚ :=
  if x < a then a else if x > b then b else x

/-! ## The per-slot computation of `calc` -/

/-- The locals of `calc` that keep their value from one loop iteration to the
next: `hsl`, `lab` and `r` are declared before the loops and assigned only in
some branches of the two `switch` statements. -/
structure CalcLocals where
  hsl : Color
  lab : Color
  r : Color
  deriving DecidableEq, Repr

/-- The first `switch` of the row loop of `calc`: convert the row's colour to
the colour space of its axis. -/
def calc_convert (lib : ColorLib) (type : VariationType) (color : Color)
    (loc : CalcLocals) : CalcLocals :=
  if type.component_id = COMPONENT_ID_HSL_HUE
      ∨ type.component_id = COMPONENT_ID_HSL_SATURATION
      ∨ type.component_id = COMPONENT_ID_HSL_LIGHTNESS then
    { loc with hsl := lib.color_rgb_to_hsl color }
  else if type.component_id = COMPONENT_ID_LAB_LIGHTNESS then
    { loc with lab := lib.color_rgb_to_lab_d50 color }
  else loc

/-- The integer `j - VAR_COLOR_WIDGETS / 2` of the slot loop. -/
def slot_offset (j : Nat) : ℤ := (j : ℤ) - ((VAR_COLOR_WIDGETS / 2 : Nat) : ℤ)

/-- The second `switch` of `calc`, executed for slot `j` of a row: build the
modified colour and convert it to RGB into `r`. -/
def calc_slot (lib : ColorLib) (type : VariationType) (strength : ℚ) (j : Nat)
    (loc : CalcLocals) : CalcLocals :=
  if type.component_id = COMPONENT_ID_HSL_HUE then
    let hsl_mod : Color :=
      { loc.hsl with
        c0 := wrap_float
          (loc.hsl.hue + (type.strength_mult * strength * (slot_offset j : ℚ)) / 400) }
    { loc with r := lib.color_hsl_to_rgb hsl_mod }
  else if type.component_id = COMPONENT_ID_HSL_SATURATION then
    let hsl_mod : Color :=
      { loc.hsl with
        c1 := clamp_float
          (loc.hsl.saturation + (type.strength_mult * strength * (slot_offset j : ℚ)) / 400)
          0 1 }
    { loc with r := lib.color_hsl_to_rgb hsl_mod }
  else if type.component_id = COMPONENT_ID_HSL_LIGHTNESS then
    let hsl_mod : Color :=
      { loc.hsl with
        c2 := clamp_float
          (loc.hsl.lightness + (type.strength_mult * strength * (slot_offset j : ℚ)) / 400)
          0 1 }
    { loc with r := lib.color_hsl_to_rgb hsl_mod }
  else if type.component_id = COMPONENT_ID_LAB_LIGHTNESS then
    let lab_mod : Color :=
      { loc.lab with
        c0 := clamp_float
          (loc.lab.L + (type.strength_mult * strength * (slot_offset j : ℚ)) / 4)
          0 100 }
    { loc with r := lib.color_rgb_normalize (lib.color_lab_to_rgb_d50 lab_mod) }
  else loc

/-! ## Toolkit state and settings store -/

/-- A widget pointer; `0` is the null pointer. -/
abbrev GtkWidget := Nat

/-- The part of the toolkit the panel touches: the colour each `GtkColor` widget
holds, the sequence of `gtk_color_set_color` calls made so far, and the next
pointer `gtk_color_new` hands out. -/
structure Gtk where
  widget_color : GtkWidget → Color
  set_log : List (GtkWidget × Color)
  next_widget : GtkWidget

/-- Toolkit call `gtk_color_get_color`. -/
def gtk_color_get_color (gtk : Gtk) (widget : GtkWidget) : Color :=
  gtk.widget_color widget

/-- Toolkit call `gtk_color_set_color`: the widget now holds `c`; the call is
recorded in the log. -/
def gtk_color_set_color (widget : GtkWidget) (c : Color) (gtk : Gtk) : Gtk :=
  { gtk with
    widget_color := fun w => if w = widget then c else gtk.widget_color w
    set_log := gtk.set_log ++ [(widget, c)] }

/-- Toolkit call `gtk_color_new`: a fresh, non-null widget. -/
def gtk_color_new (gtk : Gtk) : GtkWidget × Gtk :=
  (gtk.next_widget, { gtk with next_widget := gtk.next_widget + 1 })

/-- A value kept in the settings store. -/
inductive DynvValue where
  | string (s : String)
  | color (c : Color)
  | float (x : ℚ)
  deriving DecidableEq, Repr

/-- Modelled from the spec: the settings store (`dynvSystem`), whose code is not
part of the sources at hand.  Settings are keyed by string names; a key is
either absent or holds one typed value. -/
abbrev dynvSystem := String → Option DynvValue

/-- Modelled from the spec: writing a string setting under a key. -/
def dynv_set_string (params : dynvSystem) (key : String) (v : String) : dynvSystem :=
  fun k => if k = key then some (DynvValue.string v) else params k

/-- Modelled from the spec: writing a colour setting under a key. -/
def dynv_set_color (params : dynvSystem) (key : String) (c : Color) : dynvSystem :=
  fun k => if k = key then some (DynvValue.color c) else params k

/-- Modelled from the spec: writing a float setting under a key. -/
def dynv_set_float (params : dynvSystem) (key : String) (x : ℚ) : dynvSystem :=
  fun k => if k = key then some (DynvValue.float x) else params k

/-- Modelled from the spec: reading a string setting, with a default used when
the key holds no string. -/
def dynv_get_string_wd (params : dynvSystem) (key : String) (dflt : String) : String :=
  match params key with
  | some (DynvValue.string s) => s
  | _ => dflt

/-- Modelled from the spec: reading a colour setting, with a default used when
the key holds no colour. -/
def dynv_get_color_wdc (params : dynvSystem) (key : String) (dflt : Color) : Color :=
  match params key with
  | some (DynvValue.color c) => c
  | _ => dflt

/-- Modelled from the spec: reading a float setting, with a default used when
the key holds no float. -/
def dynv_get_float_wd (params : dynvSystem) (key : String) (dflt : ℚ) : ℚ :=
  match params key with
  | some (DynvValue.float x) => x
  | _ => dflt

/-- The result of `sprintf(tmp, fmt, i)` for the formats `"type%d"` and
`"color%d"`: the prefix followed by the decimal digits of `i`. -/
def sprintf_d (pre : String) (i : Nat) : String := pre ++ toString i

/-! ## Panel state -/

/-- One element of the array `VariationsArgs::color`. -/
structure ColorLine where
  color : GtkWidget
  var_colors : Nat → GtkWidget
  type : VariationType

/-- The fields of `VariationsArgs` that carry state.  `strength` is the value of
the range widget `args->strength`; `color` is indexed `0 .. MAX_COLOR_LINES - 1`
and `var_colors` of a line `0 .. VAR_COLOR_WIDGETS`. -/
structure VariationsArgs where
  strength : ℚ
  last_focused_color : GtkWidget
  all_colors : GtkWidget
  color : Nat → ColorLine
  params : dynvSystem
  preview_color_list : List Color

/-- The panel together with the toolkit state its widgets live in. -/
structure Panel where
  args : VariationsArgs
  gtk : Gtk

/-- Value of the locals of `calc` on entry; C++ leaves them indeterminate.  They
are read before being assigned only when a `component_id` is none of the four
constants. -/
def calc_locals_entry : CalcLocals :=
  { hsl := ⟨0, 0, 0⟩, lab := ⟨0, 0, 0⟩, r := ⟨0, 0, 0⟩ }

/-- Body of the slot loop of `calc` for slot `j` of a line. -/
def calc_slot_step (lib : ColorLib) (line : ColorLine) (strength : ℚ)
    (s : CalcLocals × Gtk) (j : Nat) : CalcLocals × Gtk :=
  if j = VAR_COLOR_WIDGETS / 2 then s
  else
    let loc := calc_slot lib line.type strength j s.1
    (loc, gtk_color_set_color (line.var_colors j) loc.r s.2)

/-- Body of the row loop of `calc` for line `i`. -/
def calc_line (lib : ColorLib) (args : VariationsArgs) (strength : ℚ)
    (s : CalcLocals × Gtk) (i : Nat) : CalcLocals × Gtk :=
  let color := gtk_color_get_color s.2 (args.color i).color
  let loc := calc_convert lib (args.color i).type color s.1
  (List.range (VAR_COLOR_WIDGETS + 1)).foldl
    (calc_slot_step lib (args.color i) strength) (loc, s.2)

/-- Function `calc` of the source (the name is reserved in Lean). -/
def calc_variations (lib : ColorLib) (p : Panel) (_preview : Bool) (save_settings : Bool) : Panel :=
  let strength := p.args.strength
  let params :=
    if save_settings then dynv_set_float p.args.params "strength" strength
    else p.args.params
  let s := (List.range MAX_COLOR_LINES).foldl
    (calc_line lib p.args strength) (calc_locals_entry, p.gtk)
  { args := { p.args with params := params }, gtk := s.2 }

/-- Function `update`: empty the preview list and run `calc` without saving. -/
def update (lib : ColorLib) (p : Panel) : Panel :=
  calc_variations lib { p with args := { p.args with preview_color_list := [] } } true false

/-- Conversion of an `int` argument to `uint32_t`. -/
def uint32_cast (x : ℤ) : Nat := (x % 4294967296).toNat

/-- Function `set_rgb_color`; `c` is the colour of the colour object and
`color_index` the `uint32_t` argument.  The C++ function returns `0`; the result
is `none` when `args->color[color_index]` lies outside the array. -/
def set_rgb_color (lib : ColorLib) (p : Panel) (c : Color) (color_index : Nat) :
    Option Panel :=
  if color_index = uint32_cast (-1) then
    let gtk := gtk_color_set_color p.args.all_colors c p.gtk
    let gtk := (List.range MAX_COLOR_LINES).foldl
      (fun g i => gtk_color_set_color (p.args.color i).color c g) gtk
    some (update lib { p with gtk := gtk })
  else if color_index < MAX_COLOR_LINES then
    some (update lib
      { p with gtk := gtk_color_set_color (p.args.color color_index).color c p.gtk })
  else none

/-- The search loop `for (i ...) if (args->color[i].color == w) { ...; break; }`
over the line indices `is`: the first matching index, or `-1`. -/
def find_line (args : VariationsArgs) (w : GtkWidget) : List Nat → ℤ
  | [] => -1
  | i :: is => if (args.color i).color = w then (i : ℤ) else find_line args w is

/-- Function `set_rgb_color_by_widget`, returning the `int` result and the new
panel. -/
def set_rgb_color_by_widget (lib : ColorLib) (p : Panel) (c : Color)
    (color_widget : GtkWidget) : Option (ℤ × Panel) :=
  if p.args.all_colors ≠ 0 then
    (set_rgb_color lib p c (uint32_cast (-1))).map (fun q => ((0 : ℤ), q))
  else
    let line_id := find_line p.args color_widget (List.range MAX_COLOR_LINES)
    if line_id = -1 then some (-1, p)
    else (set_rgb_color lib p c (uint32_cast line_id)).map (fun q => ((0 : ℤ), q))

/-- A radio menu item built by `color_show_menu`: the two pointers attached with
`g_object_set_data` and the item's check state. -/
structure MenuItem where
  color_widget : GtkWidget
  variation_type : VariationType
  active : Bool
  deriving DecidableEq

/-- Function `type_toggled_cb`.  The result is `none` when the row search fails
and `args->color[line_id]` is written with `line_id = -1`. -/
def type_toggled_cb (lib : ColorLib) (widget : MenuItem) (p : Panel) : Option Panel :=
  if widget.active then
    let line_id := find_line p.args widget.color_widget (List.range MAX_COLOR_LINES)
    if 0 ≤ line_id ∧ line_id < (MAX_COLOR_LINES : ℤ) then
      let i := line_id.toNat
      let args := { p.args with
        color := fun k =>
          if k = i then { p.args.color i with type := widget.variation_type }
          else p.args.color k }
      let c := gtk_color_get_color p.gtk widget.color_widget
      set_rgb_color lib { p with args := args } c (uint32_cast line_id)
    else none
  else some p

/-- Function `source_destroy`: the settings it leaves behind (the panel itself is
deleted). -/
def source_destroy (p : Panel) : dynvSystem :=
  let params := (List.range MAX_COLOR_LINES).foldl
    (fun params i =>
      let params := dynv_set_string params (sprintf_d "type" i) (p.args.color i).type.unique_name
      dynv_set_color params (sprintf_d "color" i)
        (gtk_color_get_color p.gtk (p.args.color i).color))
    p.args.params
  dynv_set_color params "all_colors" (gtk_color_get_color p.gtk p.args.all_colors)

/-- Function `source_deactivate`: empty the preview list and run `calc` with
`save_settings` set. -/
def source_deactivate (lib : ColorLib) (p : Panel) : Panel :=
  calc_variations lib { p with args := { p.args with preview_color_list := [] } } true true

/-! ## Panel creation -/

/-- A `VariationsArgs` as `new` leaves it: only `params` is set right away; the
other fields are indeterminate in C++ and stand here as null / empty values. -/
def args_new (params : dynvSystem) : VariationsArgs :=
  { strength := 0
    last_focused_color := 0
    all_colors := 0
    color := fun _ =>
      { color := 0, var_colors := fun _ => 0,
        type := { name := "", symbol := "", unique_name := "", component_id := 0,
                  strength_mult := 0 } }
    params := params
    preview_color_list := [] }

/-- Toolkit state before the panel creates its widgets. -/
def gtk_start : Gtk :=
  { widget_color := fun _ => ⟨0, 0, 0⟩, set_log := [], next_widget := 1 }

/-- Body of the widget-creation loops of `source_implement` for slot `j` of
line `i`. -/
def implement_slot (i : Nat) (s : VariationsArgs × Gtk) (j : Nat) : VariationsArgs × Gtk :=
  let w := gtk_color_new s.2
  let line := s.1.color i
  let line : ColorLine :=
    { line with
      var_colors := fun k => if k = j then w.1 else line.var_colors k
      type := variation_types.getD i line.type }
  let line : ColorLine :=
    if j = VAR_COLOR_WIDGETS / 2 then { line with color := line.var_colors j } else line
  ({ s.1 with color := fun k => if k = i then line else s.1.color k }, w.2)

/-- The widget-creation loops of `source_implement`, for line `i`. -/
def implement_line (s : VariationsArgs × Gtk) (i : Nat) : VariationsArgs × Gtk :=
  (List.range (VAR_COLOR_WIDGETS + 1)).foldl (implement_slot i) s

/-- Body of the settings loop of `source_implement` for line `i`: look the
persisted identifier up in `variation_types` (first match wins, no match leaves
the axis as it is) and load the line's colour. -/
def implement_load (c : Color) (p : Panel) (i : Nat) : Panel :=
  let type_name := dynv_get_string_wd p.args.params (sprintf_d "type" i) "lab_lightness"
  let line := p.args.color i
  let line : ColorLine :=
    match variation_types.find? (fun t => t.unique_name = type_name) with
    | some t => { line with type := t }
    | none => line
  { args := { p.args with color := fun k => if k = i then line else p.args.color k }
    gtk := gtk_color_set_color line.color
      (dynv_get_color_wdc p.args.params (sprintf_d "color" i) c) p.gtk }

/-- Toolkit call `gtk_range_set_value` on a range with bounds `lower`, `upper`:
the stored value is limited to the bounds. -/
def gtk_range_set_value (lower upper v : ℚ) : ℚ :=
  if v > upper then upper else if v < lower then lower else v

/-- The widget-creation part of `source_implement`: the `all_colors` widget, then
the nine slot widgets of each line. -/
def implement_widgets (dynv_namespace : dynvSystem) : VariationsArgs × Gtk :=
  let args := args_new dynv_namespace
  let w := gtk_color_new gtk_start
  let args := { args with all_colors := w.1 }
  (List.range MAX_COLOR_LINES).foldl implement_line (args, w.2)

/-- The settings-loading part of `source_implement`: axis and base colour of
each line, the colour of the `all_colors` widget, and the strength. -/
def implement_settings (dynv_namespace : dynvSystem) : Panel :=
  let s := implement_widgets dynv_namespace
  let c : Color := ⟨1 / 2, 1 / 2, 1 / 2⟩
  let p := (List.range MAX_COLOR_LINES).foldl (implement_load c) { args := s.1, gtk := s.2 }
  let all_color := dynv_get_color_wdc p.args.params "all_colors" c
  let p : Panel := { p with gtk := gtk_color_set_color p.args.all_colors all_color p.gtk }
  let strength := gtk_range_set_value 1 100 (dynv_get_float_wd p.args.params "strength" 30)
  { p with args := { p.args with strength := strength } }

/-- Function `source_implement`: the panel built from the persisted settings. -/
def source_implement (lib : ColorLib) (dynv_namespace : dynvSystem) : Panel :=
  let p := implement_settings dynv_namespace
  update lib { p with args := { p.args with preview_color_list := [] } }

/-! ## The variation engine as the specification words it -/

/-- The specification's `compute_variation(base, axis, strength, offset)`:
convert the base colour to the colour space of the axis, add the delta to the
selected component (wrapping the hue, clamping the others), and convert back to
RGB, with a normalisation step after the Lab conversion. -/
def compute_variation (lib : ColorLib) (base : Color) (axis : VariationType)
    (strength : ℚ) (offset : ℤ) : Color :=
  if axis.component_id = COMPONENT_ID_HSL_HUE then
    let hsl := lib.color_rgb_to_hsl base
    lib.color_hsl_to_rgb
      ⟨wrap_float (hsl.hue + axis.strength_mult * strength * offset / 400),
        hsl.saturation, hsl.lightness⟩
  else if axis.component_id = COMPONENT_ID_HSL_SATURATION then
    let hsl := lib.color_rgb_to_hsl base
    lib.color_hsl_to_rgb
      ⟨hsl.hue,
        clamp_float (hsl.saturation + axis.strength_mult * strength * offset / 400) 0 1,
        hsl.lightness⟩
  else if axis.component_id = COMPONENT_ID_HSL_LIGHTNESS then
    let hsl := lib.color_rgb_to_hsl base
    lib.color_hsl_to_rgb
      ⟨hsl.hue, hsl.saturation,
        clamp_float (hsl.lightness + axis.strength_mult * strength * offset / 400) 0 1⟩
  else
    let lab := lib.color_rgb_to_lab_d50 base
    lib.color_rgb_normalize (lib.color_lab_to_rgb_d50
      ⟨clamp_float (lab.L + axis.strength_mult * strength * offset / 4) 0 100, lab.a, lab.b⟩)

/-- Widget layout that `source_implement` establishes: every line's base-colour
widget is its centre slot, the 27 slot widgets are pairwise different and
different from the `all_colors` widget, and every line's axis is an entry of
`variation_types`. -/
def WellFormed (args : VariationsArgs) : Prop :=
  (∀ i, i < MAX_COLOR_LINES →
    (args.color i).color = (args.color i).var_colors (VAR_COLOR_WIDGETS / 2)) ∧
  (∀ i, i < MAX_COLOR_LINES → ∀ j, j < VAR_COLOR_WIDGETS + 1 →
    ∀ i2, i2 < MAX_COLOR_LINES → ∀ j2, j2 < VAR_COLOR_WIDGETS + 1 →
    (args.color i).var_colors j = (args.color i2).var_colors j2 → i = i2 ∧ j = j2) ∧
  (∀ i, i < MAX_COLOR_LINES → ∀ j, j < VAR_COLOR_WIDGETS + 1 →
    (args.color i).var_colors j ≠ args.all_colors) ∧
  (∀ i, i < MAX_COLOR_LINES → (args.color i).type ∈ variation_types)

set_option synthInstance.maxSize 2000 in
instance (args : VariationsArgs) : Decidable (WellFormed args) := by
  unfold WellFormed
  infer_instance

/-- The eight writes one run of `calc` is expected to make on a line whose base
colour is `base`: offsets `-4 .. -1, 1 .. 4` in this order, slot `k + 4` getting
the variation at offset `k`. -/
def line_writes (lib : ColorLib) (line : ColorLine) (strength : ℚ) (base : Color) :
    List (GtkWidget × Color) :=
  ([-4, -3, -2, -1, 1, 2, 3, 4] : List ℤ).map (fun (k : ℤ) =>
    (line.var_colors (k + 4).toNat, compute_variation lib base line.type strength k))

/-- Performing a list of `gtk_color_set_color` calls in order. -/
def apply_writes (ws : List (GtkWidget × Color)) (gtk : Gtk) : Gtk :=
  ws.foldl (fun g w => gtk_color_set_color w.1 w.2 g) gtk

/-- The writes of one whole run of `calc`: the three lines in order, each from
the base colour its widget holds on entry. -/
def panel_writes (lib : ColorLib) (p : Panel) : List (GtkWidget × Color) :=
  line_writes lib (p.args.color 0) p.args.strength (p.gtk.widget_color (p.args.color 0).color)
    ++ (line_writes lib (p.args.color 1) p.args.strength
          (p.gtk.widget_color (p.args.color 1).color)
      ++ line_writes lib (p.args.color 2) p.args.strength
          (p.gtk.widget_color (p.args.color 2).color))

/-- The index pairs of the 24 slots `calc` writes, in the order it writes them. -/
def written_slots : List (Nat × Nat) :=
  [(0, 0), (0, 1), (0, 2), (0, 3), (0, 5), (0, 6), (0, 7), (0, 8),
   (1, 0), (1, 1), (1, 2), (1, 3), (1, 5), (1, 6), (1, 7), (1, 8),
   (2, 0), (2, 1), (2, 2), (2, 3), (2, 5), (2, 6), (2, 7), (2, 8)]

/-- The axis `source_implement` selects for line `i`: the first table entry
whose identifier equals the persisted one (default `"lab_lightness"`), and the
entry at index `i` when there is none. -/
def loaded_type (ns : dynvSystem) (i : Nat) : VariationType :=
  match variation_types.find?
      (fun t => t.unique_name = dynv_get_string_wd ns (sprintf_d "type" i) "lab_lightness") with
  | some t => t
  | none => variation_types.getD i type_lab_lightness

/-! ## Widget labels and the context menu -/

/-- The string `(format("primary %d") % n).str()`; the message is taken
untranslated. -/
def label_primary (n : Nat) : String := "primary " ++ toString n

/-- The string `(format("result %d line %d") % n % line).str()`; the message is
taken untranslated. -/
def label_result (n line : Nat) : String :=
  "result " ++ toString n ++ " line " ++ toString line

/-- The slot loop of `identify_color_widget` for line `i` over the slot indices
`js`: at the first slot holding `widget` the label is returned, the slot number
being lowered by one behind the centre (`if (j > VAR_COLOR_WIDGETS / 2) j--`). -/
def identify_slots (args : VariationsArgs) (i : Nat) (widget : GtkWidget) :
    List Nat → Option String
  | [] => none
  | j :: js =>
    if (args.color i).var_colors j = widget then
      let j2 := if j > VAR_COLOR_WIDGETS / 2 then j - 1 else j
      some (label_result (j2 + 1) (i + 1))
    else identify_slots args i widget js

/-- The line loop of `identify_color_widget` over the line indices `is`; the
fall-through result is `"unknown"`. -/
def identify_lines (args : VariationsArgs) (widget : GtkWidget) : List Nat → String
  | [] => "unknown"
  | i :: is =>
    if (args.color i).color = widget then label_primary (i + 1)
    else
      match identify_slots args i widget (List.range (VAR_COLOR_WIDGETS + 1)) with
      | some label => label
      | none => identify_lines args widget is

/-- Function `identify_color_widget`. -/
def identify_color_widget (widget : GtkWidget) (args : VariationsArgs) : String :=
  if args.all_colors = widget then "all colors"
  else identify_lines args widget (List.range MAX_COLOR_LINES)

/-- The row search of `color_show_menu`: the loop has no `break`, so the last
matching line wins; `-1` when no line matches. -/
def show_menu_line (args : VariationsArgs) (widget : GtkWidget) (is : List Nat) : ℤ :=
  is.foldl (fun line_id i => if (args.color i).color = widget then (i : ℤ) else line_id) (-1)

/-- The radio items `color_show_menu` appends to the menu of `widget`, each with
the data attached by `g_object_set_data` and the check state given when the item
is built; they are the items `type_toggled_cb` is connected to. -/
def color_show_menu (widget : GtkWidget) (args : VariationsArgs) : List MenuItem :=
  let all_colors : Bool := decide (args.all_colors = widget)
  let line_id : ℤ :=
    if all_colors then -1 else show_menu_line args widget (List.range MAX_COLOR_LINES)
  if line_id ≥ 0 ∨ all_colors = true then
    if all_colors = false then
      variation_types.map (fun t =>
        { color_widget := widget
          variation_type := t
          active := decide ((args.color line_id.toNat).type = t) })
    else []
  else []

/-- A panel is up to date when every non-centre slot of every line holds the
variation of the line's base colour under the line's axis and the panel's
strength at offset `j - 4`. -/
def UpToDate (lib : ColorLib) (p : Panel) : Prop :=
  ∀ i, i < MAX_COLOR_LINES → ∀ j, j < VAR_COLOR_WIDGETS + 1 → j ≠ VAR_COLOR_WIDGETS / 2 →
    p.gtk.widget_color ((p.args.color i).var_colors j)
      = compute_variation lib (p.gtk.widget_color (p.args.color i).color)
          (p.args.color i).type p.args.strength ((j : ℤ) - 4)

/-- The 28 colour widgets of the panel: `all_colors`, then the nine slots of each
line from left to right. -/
def panel_widgets (args : VariationsArgs) : List GtkWidget :=
  args.all_colors ::
    ([0, 1, 2] : List Nat).flatMap (fun i =>
      ([0, 1, 2, 3, 4, 5, 6, 7, 8] : List Nat).map (fun j => (args.color i).var_colors j))

/-! ## Concrete inputs used to evaluate the definitions -/

/-- A colour library whose conversions are all the identity, so that the colour
written to a widget is the modified colour itself. -/
def lib_id : ColorLib := ⟨id, id, id, id, id⟩

/-- A panel layout with `all_colors = 1` and slot `j` of line `i` at pointer
`2 + 9 * i + j`, the three lines having the axes `t0`, `t1`, `t2`. -/
def demo_args (t0 t1 t2 : VariationType) (strength : ℚ) : VariationsArgs :=
  { strength := strength
    last_focused_color := 0
    all_colors := 1
    color := fun i =>
      { color := 2 + 9 * i + 4
        var_colors := fun j => 2 + 9 * i + j
        type := if i = 0 then t0 else if i = 1 then t1 else t2 }
    params := fun _ => none
    preview_color_list := [] }

/-- A toolkit state for `demo_args`: the three base-colour widgets hold `c0`,
`c1`, `c2`, the `all_colors` widget holds `c`, every other widget is black. -/
def demo_gtk (c0 c1 c2 c : Color) : Gtk :=
  { widget_color := fun w =>
      if w = 6 then c0 else if w = 15 then c1 else if w = 24 then c2
      else if w = 1 then c else ⟨0, 0, 0⟩
    set_log := []
    next_widget := 29 }

/-! ## Basic facts -/

theorem clamp_float_mem (x a b : ℚ) (hab : a ≤ b) :
    a ≤ clamp_float x a b ∧ clamp_float x a b ≤ b := by
  unfold clamp_float
  split_ifs with h1 h2
  · exact ⟨le_refl a, hab⟩
  · exact ⟨hab, le_refl b⟩
  · exact ⟨not_lt.mp h1, not_lt.mp h2⟩

theorem clamp_float_of_mem (x a b : ℚ) (h1 : a ≤ x) (h2 : x ≤ b) :
    clamp_float x a b = x := by
  unfold clamp_float
  rw [if_neg (not_lt.mpr h1), if_neg (not_lt.mpr h2)]

theorem range_slots : List.range (VAR_COLOR_WIDGETS + 1) = [0, 1, 2, 3, 4, 5, 6, 7, 8] := by
  decide

theorem half_slots : VAR_COLOR_WIDGETS / 2 = 4 := by
  decide

theorem range_lines : List.range MAX_COLOR_LINES = [0, 1, 2] := by
  decide

theorem slot_offset_add (k : Nat) : ((slot_offset (4 + k) : ℤ) : ℚ) = (k : ℚ) := by
  simp [slot_offset, half_slots]

theorem slot_offset_sub (k : Nat) (hk : k ≤ 4) : ((slot_offset (4 - k) : ℤ) : ℚ) = -(k : ℚ) := by
  simp [slot_offset, half_slots, Nat.cast_sub hk]

theorem mem_variation_types (t : VariationType) (h : t ∈ variation_types) :
    t.component_id = COMPONENT_ID_HSL_HUE ∨ t.component_id = COMPONENT_ID_HSL_SATURATION
      ∨ t.component_id = COMPONENT_ID_HSL_LIGHTNESS
      ∨ t.component_id = COMPONENT_ID_LAB_LIGHTNESS := by
  simp only [variation_types, List.mem_cons, List.mem_singleton, List.not_mem_nil,
    or_false] at h
  rcases h with h | h | h | h <;> subst h <;> decide

/-- On an axis of the table, one slot step of `calc` computes the
specification's variation of the base colour and leaves `hsl`, `lab` alone. -/
theorem calc_slot_eq (lib : ColorLib) (t : VariationType) (strength : ℚ) (j : Nat)
    (base : Color) (loc0 loc : CalcLocals) (ht : t ∈ variation_types)
    (h1 : loc.hsl = (calc_convert lib t base loc0).hsl)
    (h2 : loc.lab = (calc_convert lib t base loc0).lab) :
    (calc_slot lib t strength j loc).r = compute_variation lib base t strength (slot_offset j)
      ∧ (calc_slot lib t strength j loc).hsl = loc.hsl
      ∧ (calc_slot lib t strength j loc).lab = loc.lab := by
  rcases mem_variation_types t ht with h | h | h | h
  · simp [calc_slot, compute_variation, calc_convert, h, h1]
  · simp [calc_slot, compute_variation, calc_convert, h, h1, COMPONENT_ID_HSL_HUE,
      COMPONENT_ID_HSL_SATURATION]
  · simp [calc_slot, compute_variation, calc_convert, h, h1, COMPONENT_ID_HSL_HUE,
      COMPONENT_ID_HSL_SATURATION, COMPONENT_ID_HSL_LIGHTNESS]
  · simp [calc_slot, compute_variation, calc_convert, h, h2, COMPONENT_ID_HSL_HUE,
      COMPONENT_ID_HSL_SATURATION, COMPONENT_ID_HSL_LIGHTNESS, COMPONENT_ID_LAB_LIGHTNESS]

theorem calc_slots_fold (lib : ColorLib) (line : ColorLine) (strength : ℚ) (base : Color)
    (loc0 : CalcLocals) (ht : line.type ∈ variation_types) (js : List Nat) :
    ∀ (loc : CalcLocals) (g : Gtk),
      loc.hsl = (calc_convert lib line.type base loc0).hsl →
      loc.lab = (calc_convert lib line.type base loc0).lab →
      (js.foldl (calc_slot_step lib line strength) (loc, g)).2
        = apply_writes ((js.filter (fun j => j ≠ 4)).map (fun j =>
            (line.var_colors j, compute_variation lib base line.type strength (slot_offset j))))
            g := by
  induction js with
  | nil => intro loc g _ _; rfl
  | cons j js ih =>
    intro loc g h1 h2
    by_cases hj : j = 4
    · subst hj
      simp only [List.foldl_cons, calc_slot_step, half_slots, if_true]
      rw [ih loc g h1 h2]
      simp
    · obtain ⟨e1, e2, e3⟩ := calc_slot_eq lib line.type strength j base loc0 loc ht h1 h2
      simp only [List.foldl_cons, calc_slot_step, half_slots, if_neg hj]
      rw [ih _ _ (e2.trans h1) (e3.trans h2), e1]
      simp [hj, apply_writes]

/-- On an axis of the table, the row body of `calc` performs exactly the writes
of `line_writes` for the base colour it reads on entry. -/
theorem calc_line_gtk (lib : ColorLib) (args : VariationsArgs) (strength : ℚ)
    (s : CalcLocals × Gtk) (i : Nat) (ht : (args.color i).type ∈ variation_types) :
    (calc_line lib args strength s i).2
      = apply_writes
          (line_writes lib (args.color i) strength (s.2.widget_color (args.color i).color))
          s.2 := by
  unfold calc_line
  rw [calc_slots_fold lib (args.color i) strength _ s.1 ht _ _ _ rfl rfl]
  simp [range_slots, line_writes, slot_offset, half_slots, gtk_color_get_color]

theorem apply_writes_append (ws1 ws2 : List (GtkWidget × Color)) (g : Gtk) :
    apply_writes (ws1 ++ ws2) g = apply_writes ws2 (apply_writes ws1 g) := by
  simp [apply_writes, List.foldl_append]

theorem apply_writes_log (ws : List (GtkWidget × Color)) :
    ∀ g : Gtk, (apply_writes ws g).set_log = g.set_log ++ ws := by
  induction ws with
  | nil => intro g; simp [apply_writes]
  | cons w ws ih =>
    intro g
    have h := ih (gtk_color_set_color w.1 w.2 g)
    simp only [apply_writes, List.foldl_cons] at h ⊢
    rw [h]
    simp [gtk_color_set_color]

theorem apply_writes_next (ws : List (GtkWidget × Color)) :
    ∀ g : Gtk, (apply_writes ws g).next_widget = g.next_widget := by
  induction ws with
  | nil => intro g; simp [apply_writes]
  | cons w ws ih =>
    intro g
    have h := ih (gtk_color_set_color w.1 w.2 g)
    simp only [apply_writes, List.foldl_cons] at h ⊢
    rw [h]
    simp [gtk_color_set_color]

/-- A widget that is not the target of any write keeps its colour. -/
theorem apply_writes_frame (ws : List (GtkWidget × Color)) (w : GtkWidget) :
    ∀ g : Gtk, (∀ x ∈ ws, x.1 ≠ w) → (apply_writes ws g).widget_color w = g.widget_color w := by
  induction ws with
  | nil => intro g _; simp [apply_writes]
  | cons x ws ih =>
    intro g h
    have hx : x.1 ≠ w := h x (List.mem_cons_self x ws)
    have h2 := ih (gtk_color_set_color x.1 x.2 g)
      (fun y hy => h y (List.mem_cons_of_mem x hy))
    simp only [apply_writes, List.foldl_cons] at h2 ⊢
    rw [h2]
    simp [gtk_color_set_color, Ne.symm hx]

/-- A widget written once by a list of writes with pairwise different targets
holds the colour of that write. -/
theorem apply_writes_get (ws : List (GtkWidget × Color)) (w : GtkWidget) (c : Color) :
    ∀ g : Gtk, (ws.map Prod.fst).Nodup → (w, c) ∈ ws →
      (apply_writes ws g).widget_color w = c := by
  induction ws with
  | nil => intro g _ h; simp at h
  | cons x ws ih =>
    intro g hnd hmem
    simp only [List.map_cons, List.nodup_cons] at hnd
    rcases List.mem_cons.mp hmem with h | h
    · subst h
      have hfr := apply_writes_frame ws w (gtk_color_set_color w c g) (by
        intro y hy hyw
        exact hnd.1 (List.mem_map.mpr ⟨y, hy, hyw⟩))
      simp only [apply_writes, List.foldl_cons] at hfr ⊢
      rw [hfr]
      simp [gtk_color_set_color]
    · have h2 := ih (gtk_color_set_color x.1 x.2 g) hnd.2 h
      simp only [apply_writes, List.foldl_cons] at h2 ⊢
      exact h2

theorem line_writes_mem (lib : ColorLib) (line : ColorLine) (strength : ℚ) (base : Color)
    (x : GtkWidget × Color) (hx : x ∈ line_writes lib line strength base) :
    ∃ j, j < VAR_COLOR_WIDGETS + 1 ∧ j ≠ 4 ∧ x.1 = line.var_colors j := by
  simp only [line_writes, List.map_cons, List.map_nil, List.mem_cons, List.mem_singleton,
    List.not_mem_nil, or_false] at hx
  rcases hx with h | h | h | h | h | h | h | h <;> subst h
  · exact ⟨0, by decide, by decide, rfl⟩
  · exact ⟨1, by decide, by decide, rfl⟩
  · exact ⟨2, by decide, by decide, rfl⟩
  · exact ⟨3, by decide, by decide, rfl⟩
  · exact ⟨5, by decide, by decide, rfl⟩
  · exact ⟨6, by decide, by decide, rfl⟩
  · exact ⟨7, by decide, by decide, rfl⟩
  · exact ⟨8, by decide, by decide, rfl⟩

theorem mem_line_writes (lib : ColorLib) (line : ColorLine) (strength : ℚ) (base : Color)
    (j : Nat) (hj : j < VAR_COLOR_WIDGETS + 1) (h4 : j ≠ 4) :
    (line.var_colors j, compute_variation lib base line.type strength ((j : ℤ) - 4))
      ∈ line_writes lib line strength base := by
  have hj9 : j < 9 := hj
  interval_cases j <;> simp [line_writes] at h4 ⊢

/-- In a well-formed panel no write of a line targets a base-colour widget. -/
theorem line_writes_ne_base (lib : ColorLib) (args : VariationsArgs) (hwf : WellFormed args)
    (strength : ℚ) (base : Color) (i i2 : Nat) (hi : i < MAX_COLOR_LINES)
    (hi2 : i2 < MAX_COLOR_LINES) :
    ∀ x ∈ line_writes lib (args.color i) strength base, x.1 ≠ (args.color i2).color := by
  intro x hx hxe
  obtain ⟨j, hj, h4, hxj⟩ := line_writes_mem lib (args.color i) strength base x hx
  rw [hwf.1 i2 hi2, hxj, half_slots] at hxe
  exact h4 (hwf.2.1 i hi j hj i2 hi2 4 (by decide) hxe).2

/-- In a well-formed panel no write of a line targets the `all_colors` widget. -/
theorem line_writes_ne_all (lib : ColorLib) (args : VariationsArgs) (hwf : WellFormed args)
    (strength : ℚ) (base : Color) (i : Nat) (hi : i < MAX_COLOR_LINES) :
    ∀ x ∈ line_writes lib (args.color i) strength base, x.1 ≠ args.all_colors := by
  intro x hx hxe
  obtain ⟨j, hj, _, hxj⟩ := line_writes_mem lib (args.color i) strength base x hx
  exact hwf.2.2.1 i hi j hj (hxj ▸ hxe)

/-- On a well-formed panel, one run of `calc` changes the toolkit state by the
writes of `panel_writes` and nothing else. -/
theorem calc_gtk (lib : ColorLib) (p : Panel) (preview save_settings : Bool)
    (hwf : WellFormed p.args) :
    (calc_variations lib p preview save_settings).gtk = apply_writes (panel_writes lib p) p.gtk := by
  have h0 : (0 : Nat) < MAX_COLOR_LINES := by decide
  have h1 : (1 : Nat) < MAX_COLOR_LINES := by decide
  have h2 : (2 : Nat) < MAX_COLOR_LINES := by decide
  simp only [calc_variations, range_lines, List.foldl_cons, List.foldl_nil]
  rw [calc_line_gtk lib p.args _ _ 2 (hwf.2.2.2 2 h2),
    calc_line_gtk lib p.args _ _ 1 (hwf.2.2.2 1 h1),
    calc_line_gtk lib p.args _ _ 0 (hwf.2.2.2 0 h0)]
  simp only [panel_writes, apply_writes_append]
  rw [apply_writes_frame _ (p.args.color 2).color _
      (line_writes_ne_base lib p.args hwf _ _ 1 2 h1 h2),
    apply_writes_frame _ (p.args.color 2).color _
      (line_writes_ne_base lib p.args hwf _ _ 0 2 h0 h2),
    apply_writes_frame _ (p.args.color 1).color _
      (line_writes_ne_base lib p.args hwf _ _ 0 1 h0 h1)]

theorem panel_writes_mem (lib : ColorLib) (p : Panel) (x : GtkWidget × Color)
    (hx : x ∈ panel_writes lib p) :
    ∃ i j, i < MAX_COLOR_LINES ∧ j < VAR_COLOR_WIDGETS + 1 ∧ j ≠ 4
      ∧ x.1 = (p.args.color i).var_colors j := by
  simp only [panel_writes, List.mem_append] at hx
  rcases hx with h | h | h
  · obtain ⟨j, hj, h4, e⟩ := line_writes_mem _ _ _ _ x h
    exact ⟨0, j, by decide, hj, h4, e⟩
  · obtain ⟨j, hj, h4, e⟩ := line_writes_mem _ _ _ _ x h
    exact ⟨1, j, by decide, hj, h4, e⟩
  · obtain ⟨j, hj, h4, e⟩ := line_writes_mem _ _ _ _ x h
    exact ⟨2, j, by decide, hj, h4, e⟩

/-- On a well-formed panel a run of `calc` leaves every base-colour widget and
the `all_colors` widget as they were. -/
theorem calc_keeps_base (lib : ColorLib) (p : Panel) (preview save_settings : Bool)
    (hwf : WellFormed p.args) :
    (∀ i, i < MAX_COLOR_LINES →
      (calc_variations lib p preview save_settings).gtk.widget_color (p.args.color i).color
        = p.gtk.widget_color (p.args.color i).color)
      ∧ (calc_variations lib p preview save_settings).gtk.widget_color p.args.all_colors
        = p.gtk.widget_color p.args.all_colors := by
  rw [calc_gtk lib p preview save_settings hwf]
  constructor
  · intro i hi
    apply apply_writes_frame
    intro x hx hxe
    obtain ⟨i2, j, hi2, hj, h4, e⟩ := panel_writes_mem lib p x hx
    rw [hwf.1 i hi, e, half_slots] at hxe
    exact h4 (hwf.2.1 i2 hi2 j hj i hi 4 (by decide) hxe).2
  · apply apply_writes_frame
    intro x hx hxe
    obtain ⟨i2, j, hi2, hj, _, e⟩ := panel_writes_mem lib p x hx
    exact hwf.2.2.1 i2 hi2 j hj (e ▸ hxe)

theorem panel_writes_keys (lib : ColorLib) (p : Panel) :
    (panel_writes lib p).map Prod.fst
      = written_slots.map (fun ij => (p.args.color ij.1).var_colors ij.2) := by
  simp [panel_writes, line_writes, written_slots]

theorem written_slots_bounds :
    ∀ x ∈ written_slots, x.1 < MAX_COLOR_LINES ∧ x.2 < VAR_COLOR_WIDGETS + 1 := by
  decide

theorem panel_writes_nodup (lib : ColorLib) (p : Panel) (hwf : WellFormed p.args) :
    ((panel_writes lib p).map Prod.fst).Nodup := by
  rw [panel_writes_keys]
  apply List.Nodup.map_on
  · intro x hx y hy hxy
    have bx := written_slots_bounds x hx
    have by1 := written_slots_bounds y hy
    have h := hwf.2.1 x.1 bx.1 x.2 bx.2 y.1 by1.1 y.2 by1.2 hxy
    exact Prod.ext h.1 h.2
  · decide

/-- On a well-formed panel, after a run of `calc` every non-centre slot holds
the variation of its line's base colour at offset `j - 4`. -/
theorem calc_slot_value (lib : ColorLib) (p : Panel) (preview save_settings : Bool)
    (hwf : WellFormed p.args) (i j : Nat) (hi : i < MAX_COLOR_LINES)
    (hj : j < VAR_COLOR_WIDGETS + 1) (h4 : j ≠ 4) :
    (calc_variations lib p preview save_settings).gtk.widget_color
        ((p.args.color i).var_colors j)
      = compute_variation lib (p.gtk.widget_color (p.args.color i).color)
          (p.args.color i).type p.args.strength ((j : ℤ) - 4) := by
  rw [calc_gtk lib p preview save_settings hwf]
  apply apply_writes_get _ _ _ _ (panel_writes_nodup lib p hwf)
  have hm := mem_line_writes lib (p.args.color i) p.args.strength
    (p.gtk.widget_color (p.args.color i).color) j hj h4
  have hi3 : i < 3 := hi
  simp only [panel_writes, List.mem_append]
  interval_cases i
  · exact Or.inl hm
  · exact Or.inr (Or.inl hm)
  · exact Or.inr (Or.inr hm)

theorem demo_args_wf (t0 t1 t2 : VariationType) (strength : ℚ)
    (h0 : t0 ∈ variation_types) (h1 : t1 ∈ variation_types) (h2 : t2 ∈ variation_types) :
    WellFormed (demo_args t0 t1 t2 strength) := by
  refine ⟨?_, ?_, ?_, ?_⟩
  · intro i _
    simp [demo_args, half_slots]
  · intro i _ j hj i2 _ j2 hj2 h
    simp only [demo_args, VAR_COLOR_WIDGETS] at h hj hj2
    have h3 : (2 + 9 * i + j : Nat) = 2 + 9 * i2 + j2 := h
    constructor <;> omega
  · intro i _ j _ h
    simp only [demo_args] at h
    have h3 : (2 + 9 * i + j : Nat) = 1 := h
    omega
  · intro i hi
    simp only [demo_args]
    split_ifs <;> assumption

/-! ## Panel creation: the layout and the loaded values -/

theorem implement_widgets_var (ns : dynvSystem) (i j : Nat) (hi : i < MAX_COLOR_LINES)
    (hj : j < VAR_COLOR_WIDGETS + 1) :
    ((implement_widgets ns).1.color i).var_colors j = 2 + 9 * i + j := by
  have hi3 : i < 3 := hi
  have hj9 : j < 9 := hj
  interval_cases i <;> interval_cases j <;> rfl

theorem implement_widgets_base (ns : dynvSystem) (i : Nat) (hi : i < MAX_COLOR_LINES) :
    ((implement_widgets ns).1.color i).color = 2 + 9 * i + 4 := by
  have hi3 : i < 3 := hi
  interval_cases i <;> rfl

theorem implement_widgets_type (ns : dynvSystem) (i : Nat) (hi : i < MAX_COLOR_LINES) :
    ((implement_widgets ns).1.color i).type
      = variation_types.getD i type_lab_lightness := by
  have hi3 : i < 3 := hi
  interval_cases i <;> rfl

theorem implement_widgets_all (ns : dynvSystem) : (implement_widgets ns).1.all_colors = 1 :=
  rfl

theorem implement_widgets_params (ns : dynvSystem) : (implement_widgets ns).1.params = ns :=
  rfl

theorem implement_load_other (c : Color) (p : Panel) (i k : Nat) (hk : k ≠ i) :
    (implement_load c p i).args.color k = p.args.color k := by
  simp [implement_load, hk]

theorem implement_load_var (c : Color) (p : Panel) (i k : Nat) :
    ((implement_load c p i).args.color k).var_colors = (p.args.color k).var_colors
      ∧ ((implement_load c p i).args.color k).color = (p.args.color k).color := by
  by_cases hk : k = i
  · subst hk
    simp only [implement_load, if_true]
    split <;> exact ⟨rfl, rfl⟩
  · rw [implement_load_other c p i k hk]
    exact ⟨rfl, rfl⟩

theorem implement_load_self_type (c : Color) (p : Panel) (i : Nat) :
    ((implement_load c p i).args.color i).type
      = match variation_types.find?
          (fun t => t.unique_name
            = dynv_get_string_wd p.args.params (sprintf_d "type" i) "lab_lightness") with
        | some t => t
        | none => (p.args.color i).type := by
  simp only [implement_load, if_true]
  split <;> rfl

theorem implement_load_rest (c : Color) (p : Panel) (i : Nat) :
    (implement_load c p i).args.params = p.args.params
      ∧ (implement_load c p i).args.all_colors = p.args.all_colors
      ∧ (implement_load c p i).gtk
        = gtk_color_set_color (p.args.color i).color
            (dynv_get_color_wdc p.args.params (sprintf_d "color" i) c) p.gtk := by
  refine ⟨rfl, rfl, ?_⟩
  simp only [implement_load]
  split <;> rfl

theorem implement_settings_layout (ns : dynvSystem) (i : Nat) :
    ((implement_settings ns).args.color i).var_colors
        = ((implement_widgets ns).1.color i).var_colors
      ∧ ((implement_settings ns).args.color i).color = ((implement_widgets ns).1.color i).color
      ∧ (implement_settings ns).args.all_colors = 1
      ∧ (implement_settings ns).args.params = ns := by
  simp only [implement_settings, range_lines, List.foldl_cons, List.foldl_nil]
  refine ⟨?_, ?_, ?_, ?_⟩
  · rw [(implement_load_var _ _ 2 i).1, (implement_load_var _ _ 1 i).1,
      (implement_load_var _ _ 0 i).1]
  · rw [(implement_load_var _ _ 2 i).2, (implement_load_var _ _ 1 i).2,
      (implement_load_var _ _ 0 i).2]
  · rw [(implement_load_rest _ _ 2).2.1, (implement_load_rest _ _ 1).2.1,
      (implement_load_rest _ _ 0).2.1]
    rfl
  · rw [(implement_load_rest _ _ 2).1, (implement_load_rest _ _ 1).1,
      (implement_load_rest _ _ 0).1]
    rfl

theorem implement_settings_type (ns : dynvSystem) (i : Nat) (hi : i < MAX_COLOR_LINES) :
    ((implement_settings ns).args.color i).type = loaded_type ns i := by
  have hi3 : i < 3 := hi
  simp only [implement_settings, range_lines, List.foldl_cons, List.foldl_nil]
  interval_cases i
  · rw [implement_load_other _ _ 2 0 (by decide), implement_load_other _ _ 1 0 (by decide),
      implement_load_self_type]
    rfl
  · rw [implement_load_other _ _ 2 1 (by decide), implement_load_self_type,
      (implement_load_rest _ _ 0).1, implement_load_other _ _ 0 1 (by decide)]
    rfl
  · rw [implement_load_self_type, (implement_load_rest _ _ 1).1, (implement_load_rest _ _ 0).1,
      implement_load_other _ _ 1 2 (by decide), implement_load_other _ _ 0 2 (by decide)]
    rfl

theorem loaded_type_mem (ns : dynvSystem) (i : Nat) (hi : i < MAX_COLOR_LINES) :
    loaded_type ns i ∈ variation_types := by
  unfold loaded_type
  split
  · next t ht => exact List.mem_of_find?_eq_some ht
  · have hi3 : i < 3 := hi
    interval_cases i <;> simp [variation_types]

theorem implement_settings_wf (ns : dynvSystem) : WellFormed (implement_settings ns).args := by
  refine ⟨?_, ?_, ?_, ?_⟩
  · intro i hi
    rw [(implement_settings_layout ns i).2.1, (implement_settings_layout ns i).1,
      implement_widgets_base ns i hi, implement_widgets_var ns i _ hi (by decide), half_slots]
  · intro i hi j hj i2 hi2 j2 hj2 h
    rw [(implement_settings_layout ns i).1, (implement_settings_layout ns i2).1,
      implement_widgets_var ns i j hi hj, implement_widgets_var ns i2 j2 hi2 hj2] at h
    have h3 : (2 + 9 * i + j : Nat) = 2 + 9 * i2 + j2 := h
    have hj9 : j < 9 := hj
    have hj29 : j2 < 9 := hj2
    constructor <;> omega
  · intro i hi j hj h
    rw [(implement_settings_layout ns i).1, (implement_settings_layout ns i).2.2.1,
      implement_widgets_var ns i j hi hj] at h
    have h3 : (2 + 9 * i + j : Nat) = 1 := h
    omega
  · intro i hi
    rw [implement_settings_type ns i hi]
    exact loaded_type_mem ns i hi

theorem source_implement_args (lib : ColorLib) (ns : dynvSystem) :
    (source_implement lib ns).args.color = (implement_settings ns).args.color
      ∧ (source_implement lib ns).args.all_colors = 1
      ∧ (source_implement lib ns).args.params = ns
      ∧ (source_implement lib ns).args.strength
        = gtk_range_set_value 1 100 (dynv_get_float_wd ns "strength" 30) := by
  refine ⟨rfl, (implement_settings_layout ns 0).2.2.1, (implement_settings_layout ns 0).2.2.2,
    ?_⟩
  show gtk_range_set_value 1 100 (dynv_get_float_wd _ "strength" 30) = _
  simp only [range_lines, List.foldl_cons, List.foldl_nil]
  rw [(implement_load_rest _ _ 2).1, (implement_load_rest _ _ 1).1,
      (implement_load_rest _ _ 0).1]
  rfl

/-- The panel `source_implement` returns is well formed, whatever the settings. -/
theorem source_implement_wf (lib : ColorLib) (ns : dynvSystem) :
    WellFormed (source_implement lib ns).args :=
  implement_settings_wf ns

theorem implement_settings_colors (ns : dynvSystem) :
    (∀ i, i < MAX_COLOR_LINES →
      (implement_settings ns).gtk.widget_color ((implement_settings ns).args.color i).color
        = dynv_get_color_wdc ns (sprintf_d "color" i) ⟨1 / 2, 1 / 2, 1 / 2⟩)
      ∧ (implement_settings ns).gtk.widget_color (implement_settings ns).args.all_colors
        = dynv_get_color_wdc ns "all_colors" ⟨1 / 2, 1 / 2, 1 / 2⟩ := by
  have hg : (implement_settings ns).gtk
      = gtk_color_set_color 1 (dynv_get_color_wdc ns "all_colors" ⟨1 / 2, 1 / 2, 1 / 2⟩)
          (gtk_color_set_color 24 (dynv_get_color_wdc ns (sprintf_d "color" 2) ⟨1 / 2, 1 / 2, 1 / 2⟩)
            (gtk_color_set_color 15
              (dynv_get_color_wdc ns (sprintf_d "color" 1) ⟨1 / 2, 1 / 2, 1 / 2⟩)
              (gtk_color_set_color 6
                (dynv_get_color_wdc ns (sprintf_d "color" 0) ⟨1 / 2, 1 / 2, 1 / 2⟩)
                (implement_widgets ns).2))) := by
    simp only [implement_settings, range_lines, List.foldl_cons, List.foldl_nil]
    rw [(implement_load_rest _ _ 2).2.1, (implement_load_rest _ _ 1).2.1,
      (implement_load_rest _ _ 0).2.1, (implement_load_rest _ _ 2).1,
      (implement_load_rest _ _ 1).1, (implement_load_rest _ _ 0).1,
      (implement_load_rest _ _ 2).2.2, (implement_load_rest _ _ 1).2.2,
      (implement_load_rest _ _ 0).2.2, (implement_load_rest _ _ 1).1,
      (implement_load_rest _ _ 0).1, (implement_load_var _ _ 1 2).2,
      (implement_load_var _ _ 0 2).2, (implement_load_var _ _ 0 1).2]
    rfl
  constructor
  · intro i hi
    have hi3 : i < 3 := hi
    rw [hg, (implement_settings_layout ns i).2.1, implement_widgets_base ns i hi]
    interval_cases i <;> simp [gtk_color_set_color]
  · rw [hg, (implement_settings_layout ns 0).2.2.1]
    simp [gtk_color_set_color]

/-- The base colours and the `all_colors` colour of a freshly created panel are
the persisted ones, mid-grey by default. -/
theorem source_implement_colors (lib : ColorLib) (ns : dynvSystem) :
    (∀ i, i < MAX_COLOR_LINES →
      (source_implement lib ns).gtk.widget_color ((source_implement lib ns).args.color i).color
        = dynv_get_color_wdc ns (sprintf_d "color" i) ⟨1 / 2, 1 / 2, 1 / 2⟩)
      ∧ (source_implement lib ns).gtk.widget_color (source_implement lib ns).args.all_colors
        = dynv_get_color_wdc ns "all_colors" ⟨1 / 2, 1 / 2, 1 / 2⟩ := by
  have hk := calc_keeps_base lib
    { implement_settings ns with
      args := { (implement_settings ns).args with preview_color_list := [] } } true false
    (implement_settings_wf ns)
  have hc := implement_settings_colors ns
  constructor
  · intro i hi
    exact (hk.1 i hi).trans (hc.1 i hi)
  · exact hk.2.trans hc.2

/-! ## Setting colours -/

theorem uint32_cast_neg_one : uint32_cast (-1) = 4294967295 := by
  decide

theorem uint32_cast_line (i : Nat) (hi : i < MAX_COLOR_LINES) : uint32_cast (i : ℤ) = i := by
  have hi3 : i < 3 := hi
  interval_cases i <;> decide

/-- After a run of `calc` on a well-formed panel every line is up to date: each
non-centre slot holds the variation of the line's current base colour under the
line's current axis and the current strength. -/
theorem calc_up_to_date (lib : ColorLib) (p : Panel) (preview save_settings : Bool)
    (hwf : WellFormed p.args) (i j : Nat) (hi : i < MAX_COLOR_LINES)
    (hj : j < VAR_COLOR_WIDGETS + 1) (h4 : j ≠ 4) :
    (calc_variations lib p preview save_settings).gtk.widget_color
        (((calc_variations lib p preview save_settings).args.color i).var_colors j)
      = compute_variation lib
          ((calc_variations lib p preview save_settings).gtk.widget_color
            ((calc_variations lib p preview save_settings).args.color i).color)
          ((calc_variations lib p preview save_settings).args.color i).type
          (calc_variations lib p preview save_settings).args.strength ((j : ℤ) - 4) := by
  have h1 := calc_slot_value lib p preview save_settings hwf i j hi hj h4
  have h2 := (calc_keeps_base lib p preview save_settings hwf).1 i hi
  show (calc_variations lib p preview save_settings).gtk.widget_color
        ((p.args.color i).var_colors j)
      = compute_variation lib
          ((calc_variations lib p preview save_settings).gtk.widget_color (p.args.color i).color)
          (p.args.color i).type p.args.strength ((j : ℤ) - 4)
  rw [h1, h2]

/-- With index `(uint32_t)-1`, `set_rgb_color` gives the colour to the
`all_colors` widget and to the base-colour widget of every line. -/
theorem set_rgb_color_all (lib : ColorLib) (p : Panel) (c : Color) (hwf : WellFormed p.args) :
    ∃ q, set_rgb_color lib p c (uint32_cast (-1)) = some q
      ∧ q.args.color = p.args.color ∧ q.args.all_colors = p.args.all_colors
      ∧ (∀ i, i < MAX_COLOR_LINES → q.gtk.widget_color (p.args.color i).color = c)
      ∧ q.gtk.widget_color p.args.all_colors = c := by
  have hwf2 : WellFormed
      (Panel.mk { p.args with preview_color_list := [] }
        ((List.range MAX_COLOR_LINES).foldl
          (fun g i => gtk_color_set_color (p.args.color i).color c g)
          (gtk_color_set_color p.args.all_colors c p.gtk))).args := hwf
  have hk := calc_keeps_base lib _ true false hwf2
  refine ⟨_, if_pos rfl, rfl, rfl, ?_, ?_⟩
  · intro i hi
    have hi3 : i < 3 := hi
    refine (hk.1 i hi).trans ?_
    simp only [range_lines, List.foldl_cons, List.foldl_nil, gtk_color_set_color]
    interval_cases i <;> simp
  · refine hk.2.trans ?_
    simp [range_lines, gtk_color_set_color]

/-! ## Changing the axis of a line -/

theorem base_widget_inj (args : VariationsArgs) (hwf : WellFormed args) (i k : Nat)
    (hi : i < MAX_COLOR_LINES) (hk : k < MAX_COLOR_LINES)
    (h : (args.color k).color = (args.color i).color) : k = i := by
  rw [hwf.1 i hi, hwf.1 k hk] at h
  exact (hwf.2.1 k hk _ (by decide) i hi _ (by decide) h).1

/-- In a well-formed panel the row search finds the line a base-colour widget
belongs to. -/
theorem find_line_base (args : VariationsArgs) (hwf : WellFormed args) (i : Nat)
    (hi : i < MAX_COLOR_LINES) :
    find_line args (args.color i).color (List.range MAX_COLOR_LINES) = (i : ℤ) := by
  have hi3 : i < 3 := hi
  have h0 := base_widget_inj args hwf i 0 hi (by decide)
  have h1 := base_widget_inj args hwf i 1 hi (by decide)
  simp only [range_lines, find_line]
  interval_cases i
  · simp
  · have : ¬ (args.color 0).color = (args.color 1).color := fun h => by
      have := h0 h
      omega
    simp [this]
  · have e0 : ¬ (args.color 0).color = (args.color 2).color := fun h => by
      have := h0 h
      omega
    have e1 : ¬ (args.color 1).color = (args.color 2).color := fun h => by
      have := h1 h
      omega
    simp [e0, e1]

theorem gtk_set_same (w : GtkWidget) (g : Gtk) :
    (gtk_color_set_color w (g.widget_color w) g).widget_color = g.widget_color := by
  funext x
  by_cases h : x = w
  · simp [gtk_color_set_color, h]
  · simp [gtk_color_set_color, h]

/-- An activated radio item of line `i` makes `type_toggled_cb` run `calc` on
the panel whose line `i` has the item's axis, every widget colour being as
before. -/
theorem type_toggled_cb_run (lib : ColorLib) (p : Panel) (widget : MenuItem) (i : Nat)
    (hwf : WellFormed p.args) (hi : i < MAX_COLOR_LINES)
    (hw : widget.color_widget = (p.args.color i).color)
    (ht : widget.variation_type ∈ variation_types) (hact : widget.active = true) :
    ∃ p2 : Panel, type_toggled_cb lib widget p = some (calc_variations lib p2 true false)
      ∧ WellFormed p2.args
      ∧ p2.gtk.widget_color = p.gtk.widget_color
      ∧ p2.args.strength = p.args.strength
      ∧ p2.args.params = p.args.params
      ∧ p2.args.all_colors = p.args.all_colors
      ∧ ∀ k, (p2.args.color k).color = (p.args.color k).color
          ∧ (p2.args.color k).var_colors = (p.args.color k).var_colors
          ∧ (p2.args.color k).type
            = if k = i then widget.variation_type else (p.args.color k).type := by
  have hi3 : i < 3 := hi
  have hfind := find_line_base p.args hwf i hi
  rw [← hw] at hfind
  have hfields : ∀ k,
      ((if k = i then { p.args.color i with type := widget.variation_type }
          else p.args.color k : ColorLine)).color = (p.args.color k).color
        ∧ ((if k = i then { p.args.color i with type := widget.variation_type }
          else p.args.color k : ColorLine)).var_colors = (p.args.color k).var_colors
        ∧ ((if k = i then { p.args.color i with type := widget.variation_type }
          else p.args.color k : ColorLine)).type
          = if k = i then widget.variation_type else (p.args.color k).type := by
    intro k
    by_cases hk : k = i
    · subst hk
      simp
    · simp [hk]
  refine ⟨⟨{ p.args with
        color := fun k =>
          if k = i then { p.args.color i with type := widget.variation_type }
          else p.args.color k
        preview_color_list := [] },
      gtk_color_set_color widget.color_widget (p.gtk.widget_color widget.color_widget) p.gtk⟩,
    ?_, ?_, gtk_set_same _ _, rfl, rfl, rfl, hfields⟩
  · simp only [type_toggled_cb, hact, if_true, hfind, set_rgb_color, uint32_cast_line i hi,
      uint32_cast_neg_one, Int.toNat_ofNat, update, gtk_color_get_color]
    have hlt : (0 : ℤ) ≤ (i : ℤ) ∧ (i : ℤ) < (MAX_COLOR_LINES : ℤ) :=
      ⟨Int.natCast_nonneg i, by exact_mod_cast hi⟩
    have hne : ¬ i = 4294967295 := by omega
    rw [if_pos hlt, if_neg hne, if_pos hi]
    simp [hw]
  · refine ⟨?_, ?_, ?_, ?_⟩
    · intro k hk
      show (if k = i then _ else _ : ColorLine).color
        = (if k = i then _ else _ : ColorLine).var_colors _
      rw [(hfields k).1, (hfields k).2.1]
      exact hwf.1 k hk
    · intro k hk j hj k2 hk2 j2 hj2 h
      have h' : (if k = i then _ else _ : ColorLine).var_colors j
        = (if k2 = i then _ else _ : ColorLine).var_colors j2 := h
      rw [(hfields k).2.1, (hfields k2).2.1] at h'
      exact hwf.2.1 k hk j hj k2 hk2 j2 hj2 h'
    · intro k hk j hj h
      have h' : (if k = i then _ else _ : ColorLine).var_colors j = p.args.all_colors := h
      rw [(hfields k).2.1] at h'
      exact hwf.2.2.1 k hk j hj h'
    · intro k hk
      show (if k = i then _ else _ : ColorLine).type ∈ variation_types
      rw [(hfields k).2.2]
      split_ifs
      · exact ht
      · exact hwf.2.2.2 k hk

/-! ## Persistence -/

theorem sprintf_d_keys :
    sprintf_d "type" 0 = "type0" ∧ sprintf_d "type" 1 = "type1" ∧ sprintf_d "type" 2 = "type2"
      ∧ sprintf_d "color" 0 = "color0" ∧ sprintf_d "color" 1 = "color1"
      ∧ sprintf_d "color" 2 = "color2" := by
  decide

/-- What `source_destroy` leaves in the settings: the identifier of each line's
axis, each line's base colour, the `all_colors` colour; every other key is as it
was. -/
theorem source_destroy_get (p : Panel) :
    (∀ i, i < MAX_COLOR_LINES →
      source_destroy p (sprintf_d "type" i)
          = some (DynvValue.string (p.args.color i).type.unique_name)
        ∧ source_destroy p (sprintf_d "color" i)
          = some (DynvValue.color (p.gtk.widget_color (p.args.color i).color)))
      ∧ source_destroy p "all_colors"
        = some (DynvValue.color (p.gtk.widget_color p.args.all_colors))
      ∧ ∀ key, key ∉ ["type0", "color0", "type1", "color1", "type2", "color2", "all_colors"] →
          source_destroy p key = p.args.params key := by
  obtain ⟨t0, t1, t2, c0, c1, c2⟩ := sprintf_d_keys
  refine ⟨?_, ?_, ?_⟩
  · intro i hi
    have hi3 : i < 3 := hi
    simp only [source_destroy, range_lines, List.foldl_cons, List.foldl_nil, t0, t1, t2, c0, c1,
      c2, dynv_set_string, dynv_set_color, gtk_color_get_color]
    interval_cases i
    · simp [t0, c0]
    · simp [t1, c1]
    · simp [t2, c2]
  · simp [source_destroy, dynv_set_color, gtk_color_get_color]
  · intro key hkey
    simp only [List.mem_cons, List.mem_singleton, List.not_mem_nil, or_false, not_or] at hkey
    obtain ⟨k1, k2, k3, k4, k5, k6, k7⟩ := hkey
    simp [source_destroy, range_lines, t0, t1, t2, c0, c1, c2, dynv_set_string, dynv_set_color,
      k1, k2, k3, k4, k5, k6, k7]

/-- Looking an identifier of the table up in the table gives its entry back. -/
theorem find_unique_name (t : VariationType) (ht : t ∈ variation_types) :
    variation_types.find? (fun x => x.unique_name = t.unique_name) = some t := by
  simp only [variation_types, List.mem_cons, List.mem_singleton, List.not_mem_nil,
    or_false] at ht
  rcases ht with h | h | h | h <;> subst h <;> decide

/-! ## Widget labels -/

/-- In a well-formed panel the base-colour widget of line `k` is no slot of
another line and no non-centre slot of its own line. -/
theorem slot_ne_base (args : VariationsArgs) (hwf : WellFormed args) (i j k : Nat)
    (hi : i < MAX_COLOR_LINES) (hj : j < VAR_COLOR_WIDGETS + 1) (hk : k < MAX_COLOR_LINES)
    (h : k ≠ i ∨ j ≠ 4) : (args.color k).color ≠ (args.color i).var_colors j := by
  intro he
  rw [hwf.1 k hk, half_slots] at he
  have h2 := hwf.2.1 k hk 4 (by decide) i hi j hj he
  rcases h with h | h
  · exact h h2.1
  · exact h h2.2.symm

theorem identify_slots_hit (args : VariationsArgs) (hwf : WellFormed args) (i j : Nat)
    (hi : i < MAX_COLOR_LINES) (hj : j < VAR_COLOR_WIDGETS + 1) (js : List Nat) :
    (∀ x ∈ js, x < VAR_COLOR_WIDGETS + 1) → j ∈ js →
      identify_slots args i ((args.color i).var_colors j) js
        = some (label_result ((if j > 4 then j - 1 else j) + 1) (i + 1)) := by
  induction js with
  | nil => intro _ h; simp at h
  | cons x js ih =>
    intro hb hmem
    have hx : x < VAR_COLOR_WIDGETS + 1 := hb x (List.mem_cons_self x js)
    by_cases he : (args.color i).var_colors x = (args.color i).var_colors j
    · have hxj : x = j := (hwf.2.1 i hi x hx i hi j hj he).2
      subst hxj
      simp [identify_slots, half_slots]
    · have hne : x ≠ j := fun h => he (by rw [h])
      have hmem2 : j ∈ js := by
        rcases List.mem_cons.mp hmem with h | h
        · exact absurd h.symm hne
        · exact h
      simp only [identify_slots, if_neg he]
      exact ih (fun y hy => hb y (List.mem_cons_of_mem x hy)) hmem2

theorem identify_slots_miss (args : VariationsArgs) (i : Nat) (w : GtkWidget) (js : List Nat) :
    (∀ x ∈ js, (args.color i).var_colors x ≠ w) → identify_slots args i w js = none := by
  induction js with
  | nil => intro _; rfl
  | cons x js ih =>
    intro h
    simp only [identify_slots, if_neg (h x (List.mem_cons_self x js))]
    exact ih (fun y hy => h y (List.mem_cons_of_mem x hy))

theorem identify_lines_skip (args : VariationsArgs) (w : GtkWidget) (k : Nat) (is : List Nat)
    (h1 : (args.color k).color ≠ w)
    (h2 : identify_slots args k w (List.range (VAR_COLOR_WIDGETS + 1)) = none) :
    identify_lines args w (k :: is) = identify_lines args w is := by
  simp only [identify_lines, if_neg h1, h2]

theorem identify_lines_slot (args : VariationsArgs) (w : GtkWidget) (k : Nat) (is : List Nat)
    (label : String) (h1 : (args.color k).color ≠ w)
    (h2 : identify_slots args k w (List.range (VAR_COLOR_WIDGETS + 1)) = some label) :
    identify_lines args w (k :: is) = label := by
  simp only [identify_lines, if_neg h1, h2]

theorem range_slots_lt : ∀ x ∈ List.range (VAR_COLOR_WIDGETS + 1), x < VAR_COLOR_WIDGETS + 1 :=
  fun _ hx => List.mem_range.mp hx

/-- In a well-formed panel a line other than `i` is passed over when the widget
looked for is a slot of line `i`. -/
theorem identify_lines_other (args : VariationsArgs) (hwf : WellFormed args) (i j k : Nat)
    (hi : i < MAX_COLOR_LINES) (hj : j < VAR_COLOR_WIDGETS + 1) (hk : k < MAX_COLOR_LINES)
    (hki : k ≠ i) (is : List Nat) :
    identify_lines args ((args.color i).var_colors j) (k :: is)
      = identify_lines args ((args.color i).var_colors j) is := by
  apply identify_lines_skip
  · exact slot_ne_base args hwf i j k hi hj hk (Or.inl hki)
  · apply identify_slots_miss
    intro x hx he
    exact hki (hwf.2.1 k hk x (range_slots_lt x hx) i hi j hj he).1

/-- In a well-formed panel `identify_color_widget` labels slot `j` of line `i`
as the primary colour of the line when `j` is the centre and as result
`j + 1` (before the centre) or `j` (behind it) otherwise. -/
theorem identify_slot_label (args : VariationsArgs) (hwf : WellFormed args) (i j : Nat)
    (hi : i < MAX_COLOR_LINES) (hj : j < VAR_COLOR_WIDGETS + 1) :
    identify_color_widget ((args.color i).var_colors j) args
      = if j = 4 then label_primary (i + 1)
        else label_result ((if j > 4 then j - 1 else j) + 1) (i + 1) := by
  have hall : ¬ args.all_colors = (args.color i).var_colors j :=
    fun h => hwf.2.2.1 i hi j hj h.symm
  have hline : ∀ is, identify_lines args ((args.color i).var_colors j) (i :: is)
      = if j = 4 then label_primary (i + 1)
        else label_result ((if j > 4 then j - 1 else j) + 1) (i + 1) := by
    intro is
    by_cases h4 : j = 4
    · subst h4
      have hc : (args.color i).color = (args.color i).var_colors 4 := by
        rw [hwf.1 i hi, half_slots]
      simp only [identify_lines, if_pos hc, if_true]
    · rw [if_neg h4]
      apply identify_lines_slot
      · exact slot_ne_base args hwf i j i hi hj hi (Or.inr h4)
      · exact identify_slots_hit args hwf i j hi hj _ range_slots_lt (List.mem_range.mpr hj)
  have hi3 : i < 3 := hi
  simp only [identify_color_widget, if_neg hall, range_lines]
  interval_cases i
  · exact hline _
  · rw [identify_lines_other args hwf 1 j 0 hi hj (by decide) (by decide)]
    exact hline _
  · rw [identify_lines_other args hwf 2 j 0 hi hj (by decide) (by decide),
      identify_lines_other args hwf 2 j 1 hi hj (by decide) (by decide)]
    exact hline _

/-! ## The consistency invariant -/

theorem line_writes_mem_value (lib : ColorLib) (line : ColorLine) (strength : ℚ) (base : Color)
    (x : GtkWidget × Color) (hx : x ∈ line_writes lib line strength base) :
    ∃ j, j < VAR_COLOR_WIDGETS + 1 ∧ j ≠ 4 ∧ x.1 = line.var_colors j
      ∧ x.2 = compute_variation lib base line.type strength ((j : ℤ) - 4) := by
  simp only [line_writes, List.map_cons, List.map_nil, List.mem_cons, List.mem_singleton,
    List.not_mem_nil, or_false] at hx
  rcases hx with h | h | h | h | h | h | h | h <;> subst h
  · exact ⟨0, by decide, by decide, rfl, rfl⟩
  · exact ⟨1, by decide, by decide, rfl, rfl⟩
  · exact ⟨2, by decide, by decide, rfl, rfl⟩
  · exact ⟨3, by decide, by decide, rfl, rfl⟩
  · exact ⟨5, by decide, by decide, rfl, rfl⟩
  · exact ⟨6, by decide, by decide, rfl, rfl⟩
  · exact ⟨7, by decide, by decide, rfl, rfl⟩
  · exact ⟨8, by decide, by decide, rfl, rfl⟩

/-- Writes that repeat what the widgets already hold change no widget colour. -/
theorem apply_writes_noop (ws : List (GtkWidget × Color)) :
    ∀ g : Gtk, (∀ x ∈ ws, g.widget_color x.1 = x.2) →
      (apply_writes ws g).widget_color = g.widget_color := by
  induction ws with
  | nil => intro g _; rfl
  | cons x ws ih =>
    intro g h
    have hx := h x (List.mem_cons_self x ws)
    have hset : (gtk_color_set_color x.1 x.2 g).widget_color = g.widget_color := by
      rw [← hx]
      exact gtk_set_same x.1 g
    have h2 := ih (gtk_color_set_color x.1 x.2 g) (fun y hy => by
      rw [hset]
      exact h y (List.mem_cons_of_mem x hy))
    simp only [apply_writes, List.foldl_cons] at h2 ⊢
    rw [h2, hset]

/-- A run of `calc` on a well-formed panel leaves an up-to-date panel. -/
theorem calc_establishes_up_to_date (lib : ColorLib) (p : Panel)
    (preview save_settings : Bool) (hwf : WellFormed p.args) :
    UpToDate lib (calc_variations lib p preview save_settings) := by
  intro i hi j hj h4
  rw [half_slots] at h4
  exact calc_up_to_date lib p preview save_settings hwf i j hi hj h4

/-- A run of `calc` on a well-formed, up-to-date panel changes no widget colour. -/
theorem calc_noop_of_up_to_date (lib : ColorLib) (p : Panel) (preview save_settings : Bool)
    (hwf : WellFormed p.args) (hup : UpToDate lib p) :
    (calc_variations lib p preview save_settings).gtk.widget_color = p.gtk.widget_color := by
  rw [calc_gtk lib p preview save_settings hwf]
  apply apply_writes_noop
  intro x hx
  have hline : ∀ i, i < MAX_COLOR_LINES →
      x ∈ line_writes lib (p.args.color i) p.args.strength
        (p.gtk.widget_color (p.args.color i).color) → p.gtk.widget_color x.1 = x.2 := by
    intro i hi hxi
    obtain ⟨j, hj, h4, e1, e2⟩ := line_writes_mem_value _ _ _ _ x hxi
    rw [e1, e2]
    exact hup i hi j hj (by rw [half_slots]; exact h4)
  simp only [panel_writes, List.mem_append] at hx
  rcases hx with h | h | h
  · exact hline 0 (by decide) h
  · exact hline 1 (by decide) h
  · exact hline 2 (by decide) h

theorem set_rgb_color_line (lib : ColorLib) (p : Panel) (c : Color) (i : Nat)
    (hi : i < MAX_COLOR_LINES) :
    set_rgb_color lib p c i
      = some (update lib
          { p with gtk := gtk_color_set_color (p.args.color i).color c p.gtk }) := by
  have hi3 : i < 3 := hi
  have hne : ¬ i = uint32_cast (-1) := by
    rw [uint32_cast_neg_one]
    omega
  simp only [set_rgb_color, if_neg hne, if_pos hi]

/-- When the row search yields a line, `type_toggled_cb` returns a panel. -/
theorem type_toggled_cb_some (lib : ColorLib) (p : Panel) (widget : MenuItem) (i : Nat)
    (hi : i < MAX_COLOR_LINES)
    (hfind : find_line p.args widget.color_widget (List.range MAX_COLOR_LINES) = (i : ℤ)) :
    (type_toggled_cb lib widget p).isSome = true := by
  by_cases hact : widget.active = true
  · have hlt : (0 : ℤ) ≤ (i : ℤ) ∧ (i : ℤ) < (MAX_COLOR_LINES : ℤ) :=
      ⟨Int.natCast_nonneg i, by exact_mod_cast hi⟩
    simp only [type_toggled_cb, hact, if_true, hfind, if_pos hlt, uint32_cast_line i hi]
    rw [set_rgb_color_line lib _ _ i hi]
    rfl
  · simp [type_toggled_cb, hact]

/-! ## The context menu -/

theorem mem_color_show_menu (widget : GtkWidget) (args : VariationsArgs) (item : MenuItem)
    (h : item ∈ color_show_menu widget args) :
    item.color_widget = widget ∧ item.variation_type ∈ variation_types
      ∧ args.all_colors ≠ widget
      ∧ 0 ≤ show_menu_line args widget (List.range MAX_COLOR_LINES) := by
  by_cases hall : args.all_colors = widget
  · simp [color_show_menu, hall] at h
  · by_cases hline : show_menu_line args widget (List.range MAX_COLOR_LINES) ≥ 0
    · simp only [color_show_menu, hall, decide_False, Bool.false_eq_true, if_false, hline,
        or_false, if_true, List.mem_map] at h
      obtain ⟨t, ht, rfl⟩ := h
      exact ⟨rfl, ht, hall, hline⟩
    · simp [color_show_menu, hall, hline] at h

/-- When the row search of `color_show_menu` finds a line, the row search of
`type_toggled_cb` finds one as well, and that line has the widget as its
base-colour widget. -/
theorem find_line_of_show_menu_line (args : VariationsArgs) (widget : GtkWidget)
    (h : 0 ≤ show_menu_line args widget (List.range MAX_COLOR_LINES)) :
    ∃ i, i < MAX_COLOR_LINES ∧ (args.color i).color = widget
      ∧ find_line args widget (List.range MAX_COLOR_LINES) = (i : ℤ) := by
  simp only [show_menu_line, range_lines, List.foldl_cons, List.foldl_nil] at h
  simp only [range_lines, find_line]
  by_cases h0 : (args.color 0).color = widget
  · exact ⟨0, by decide, h0, by simp [h0]⟩
  · by_cases h1 : (args.color 1).color = widget
    · exact ⟨1, by decide, h1, by simp [h0, h1]⟩
    · by_cases h2 : (args.color 2).color = widget
      · exact ⟨2, by decide, h2, by simp [h0, h1, h2]⟩
      · simp [h0, h1, h2] at h

/-- The row search looks at the base-colour pointers only. -/
theorem find_line_congr (a b : VariationsArgs) (w : GtkWidget)
    (h : ∀ i, (a.color i).color = (b.color i).color) (is : List Nat) :
    find_line a w is = find_line b w is := by
  induction is with
  | nil => rfl
  | cons i is ih => simp only [find_line, h i, ih]

/-! ## The formulas of the four axes -/

/-- On a line whose axis is HSL-Hue, the row body of `calc` writes, for the
offsets `k = -4, .., -1, 1, .., 4` in this order, slot `k + 4` with
`color_hsl_to_rgb` of the line's HSL colour whose hue is replaced by
`wrap_float (hue + strength_mult * strength * k / 400)`, saturation and
lightness being kept. -/
theorem calc_line_hue_writes (lib : ColorLib) (args : VariationsArgs) (strength : ℚ)
    (s : CalcLocals × Gtk) (i : Nat)
    (ht : (args.color i).type.component_id = COMPONENT_ID_HSL_HUE) :
    (calc_line lib args strength s i).2.set_log
        = s.2.set_log ++ ([-4, -3, -2, -1, 1, 2, 3, 4] : List ℤ).map (fun (k : ℤ) =>
            ((args.color i).var_colors (k + 4).toNat,
              lib.color_hsl_to_rgb
                ⟨wrap_float
                    ((lib.color_rgb_to_hsl (gtk_color_get_color s.2 (args.color i).color)).hue
                      + (args.color i).type.strength_mult * strength * (k : ℚ) / 400),
                  (lib.color_rgb_to_hsl (gtk_color_get_color s.2 (args.color i).color)).saturation,
                  (lib.color_rgb_to_hsl
                    (gtk_color_get_color s.2 (args.color i).color)).lightness⟩)) := by
  simp only [calc_line, range_slots, List.foldl_cons, List.foldl_nil, calc_slot_step, half_slots]
  simp [calc_slot, calc_convert, ht, slot_offset, half_slots,
    gtk_color_set_color, Color.hue, Color.saturation, Color.lightness]

/-- Claim C2.  On a line whose axis is HSL-Saturation (HSL-Lightness), the row
body of `calc` writes, for the offsets `k = -4, .., -1, 1, .., 4` in this order,
slot `k + 4` with `color_hsl_to_rgb` of the line's HSL colour whose saturation
(lightness) `v` is replaced by `clamp_float (v + strength_mult * strength * k /
400) 0 1`, the two other components being kept; and `clamp_float x 0 1` always
lies in `[0, 1]`. -/
theorem calc_line_saturation_lightness (lib : ColorLib) (args : VariationsArgs)
    (strength : ℚ) (s : CalcLocals × Gtk) (i : Nat) :
    ((args.color i).type.component_id = COMPONENT_ID_HSL_SATURATION →
      (calc_line lib args strength s i).2.set_log
        = s.2.set_log ++ ([-4, -3, -2, -1, 1, 2, 3, 4] : List ℤ).map (fun (k : ℤ) =>
            ((args.color i).var_colors (k + 4).toNat,
              lib.color_hsl_to_rgb
                ⟨(lib.color_rgb_to_hsl (gtk_color_get_color s.2 (args.color i).color)).hue,
                  clamp_float
                    ((lib.color_rgb_to_hsl
                        (gtk_color_get_color s.2 (args.color i).color)).saturation
                      + (args.color i).type.strength_mult * strength * (k : ℚ) / 400) 0 1,
                  (lib.color_rgb_to_hsl
                    (gtk_color_get_color s.2 (args.color i).color)).lightness⟩)))
      ∧ ((args.color i).type.component_id = COMPONENT_ID_HSL_LIGHTNESS →
        (calc_line lib args strength s i).2.set_log
          = s.2.set_log ++ ([-4, -3, -2, -1, 1, 2, 3, 4] : List ℤ).map (fun (k : ℤ) =>
              ((args.color i).var_colors (k + 4).toNat,
                lib.color_hsl_to_rgb
                  ⟨(lib.color_rgb_to_hsl (gtk_color_get_color s.2 (args.color i).color)).hue,
                    (lib.color_rgb_to_hsl
                      (gtk_color_get_color s.2 (args.color i).color)).saturation,
                    clamp_float
                      ((lib.color_rgb_to_hsl
                          (gtk_color_get_color s.2 (args.color i).color)).lightness
                        + (args.color i).type.strength_mult * strength * (k : ℚ) / 400) 0 1⟩)))
      ∧ ∀ x : ℚ, 0 ≤ clamp_float x 0 1 ∧ clamp_float x 0 1 ≤ 1 := by
  refine ⟨fun ht => ?_, fun ht => ?_, fun x => clamp_float_mem x 0 1 zero_le_one⟩
  · simp only [calc_line, range_slots, List.foldl_cons, List.foldl_nil, calc_slot_step,
      half_slots]
    simp [calc_slot, calc_convert, ht, slot_offset, half_slots, gtk_color_set_color,
      Color.hue, Color.saturation, Color.lightness, COMPONENT_ID_HSL_HUE,
      COMPONENT_ID_HSL_SATURATION]
  · simp only [calc_line, range_slots, List.foldl_cons, List.foldl_nil, calc_slot_step,
      half_slots]
    simp [calc_slot, calc_convert, ht, slot_offset, half_slots, gtk_color_set_color,
      Color.hue, Color.saturation, Color.lightness, COMPONENT_ID_HSL_HUE,
      COMPONENT_ID_HSL_SATURATION, COMPONENT_ID_HSL_LIGHTNESS]

/-- Witness for C2: a saturation line and a lightness line with base value 0.95
at strength 100; the last write of each row (offset +4) has the component at
exactly 1. -/
theorem calc_line_saturation_lightness_witness :
    (((demo_args type_hsl_hue type_hsl_saturation type_hsl_lightness 100).color 1).type.component_id
        = COMPONENT_ID_HSL_SATURATION
      ∧ (calc_line lib_id (demo_args type_hsl_hue type_hsl_saturation type_hsl_lightness 100) 100
            (calc_locals_entry, demo_gtk ⟨0, 0, 0⟩ ⟨1 / 2, 19 / 20, 1 / 2⟩ ⟨0, 0, 0⟩ ⟨0, 0, 0⟩)
            1).2.set_log.getLast?
          = some (19, ⟨1 / 2, 1, 1 / 2⟩))
      ∧ (((demo_args type_hsl_hue type_hsl_saturation type_hsl_lightness 100).color
            2).type.component_id
          = COMPONENT_ID_HSL_LIGHTNESS
        ∧ (calc_line lib_id (demo_args type_hsl_hue type_hsl_saturation type_hsl_lightness 100)
              100
              (calc_locals_entry, demo_gtk ⟨0, 0, 0⟩ ⟨0, 0, 0⟩ ⟨1 / 2, 1 / 2, 19 / 20⟩ ⟨0, 0, 0⟩)
              2).2.set_log.getLast?
            = some (28, ⟨1 / 2, 1 / 2, 1⟩)) := by
  refine ⟨⟨by decide, ?_⟩, ⟨by decide, ?_⟩⟩
  · rw [(calc_line_saturation_lightness lib_id
      (demo_args type_hsl_hue type_hsl_saturation type_hsl_lightness 100) 100 _ 1).1
      (by decide)]
    simp [demo_args, demo_gtk, lib_id, gtk_color_get_color, type_hsl_saturation, clamp_float]
    norm_num
  · rw [(calc_line_saturation_lightness lib_id
      (demo_args type_hsl_hue type_hsl_saturation type_hsl_lightness 100) 100 _ 2).2.1
      (by decide)]
    simp [demo_args, demo_gtk, lib_id, gtk_color_get_color, type_hsl_lightness, clamp_float]
    norm_num

/-- Claim C3.  On a line whose axis is Lab-Lightness, the row body of `calc`
writes, for the offsets `k = -4, .., -1, 1, .., 4` in this order, slot `k + 4`
with the normalised `color_lab_to_rgb_d50` of the line's Lab colour whose `L` is
replaced by `clamp_float (L + strength_mult * strength * k / 4) 0 100`, `a` and
`b` being kept; and `clamp_float x 0 100` always lies in `[0, 100]`. -/
theorem calc_line_lab (lib : ColorLib) (args : VariationsArgs) (strength : ℚ)
    (s : CalcLocals × Gtk) (i : Nat)
    (ht : (args.color i).type.component_id = COMPONENT_ID_LAB_LIGHTNESS) :
    (calc_line lib args strength s i).2.set_log
        = s.2.set_log ++ ([-4, -3, -2, -1, 1, 2, 3, 4] : List ℤ).map (fun (k : ℤ) =>
            ((args.color i).var_colors (k + 4).toNat,
              lib.color_rgb_normalize (lib.color_lab_to_rgb_d50
                ⟨clamp_float
                    ((lib.color_rgb_to_lab_d50
                        (gtk_color_get_color s.2 (args.color i).color)).L
                      + (args.color i).type.strength_mult * strength * (k : ℚ) / 4) 0 100,
                  (lib.color_rgb_to_lab_d50 (gtk_color_get_color s.2 (args.color i).color)).a,
                  (lib.color_rgb_to_lab_d50
                    (gtk_color_get_color s.2 (args.color i).color)).b⟩)))
      ∧ ∀ x : ℚ, 0 ≤ clamp_float x 0 100 ∧ clamp_float x 0 100 ≤ 100 := by
  refine ⟨?_, fun x => clamp_float_mem x 0 100 (by norm_num)⟩
  simp only [calc_line, range_slots, List.foldl_cons, List.foldl_nil, calc_slot_step, half_slots]
  simp [calc_slot, calc_convert, ht, slot_offset, half_slots, gtk_color_set_color,
    Color.L, Color.a, Color.b, COMPONENT_ID_HSL_HUE, COMPONENT_ID_HSL_SATURATION,
    COMPONENT_ID_HSL_LIGHTNESS, COMPONENT_ID_LAB_LIGHTNESS]

/-- Witness for C3: base `L = 98`, strength 100; the last write of the row
(offset +4) has `L = 100` (a divisor of 400 would give 99). -/
theorem calc_line_lab_witness :
    ((demo_args type_lab_lightness type_hsl_saturation type_hsl_lightness 100).color
          0).type.component_id
        = COMPONENT_ID_LAB_LIGHTNESS
      ∧ (calc_line lib_id (demo_args type_lab_lightness type_hsl_saturation type_hsl_lightness 100)
            100
            (calc_locals_entry, demo_gtk ⟨98, 3, 5⟩ ⟨0, 0, 0⟩ ⟨0, 0, 0⟩ ⟨0, 0, 0⟩)
            0).2.set_log.getLast?
          = some (10, ⟨100, 3, 5⟩) := by
  refine ⟨by decide, ?_⟩
  rw [(calc_line_lab lib_id (demo_args type_lab_lightness type_hsl_saturation type_hsl_lightness 100)
    100 _ 0 (by decide)).1]
  simp [demo_args, demo_gtk, lib_id, gtk_color_get_color, type_lab_lightness, clamp_float]
  norm_num

/-- For each of the four axes and `k ≤ 4`, the slots `4 + k` and `4 - k` are
computed from the base component plus `d` and plus `-d`, where
`d = strength_mult * strength * k / divisor` with divisor 400 for the HSL axes
and 4 for Lab lightness. -/
theorem calc_slot_opposite_offsets (lib : ColorLib) (type : VariationType) (strength : ℚ)
    (loc : CalcLocals) (k : Nat) (hk4 : k ≤ 4) :
    (type.component_id = COMPONENT_ID_HSL_HUE →
      (calc_slot lib type strength (4 + k) loc).r
          = lib.color_hsl_to_rgb
              ⟨wrap_float (loc.hsl.hue + type.strength_mult * strength * k / 400),
                loc.hsl.saturation, loc.hsl.lightness⟩
        ∧ (calc_slot lib type strength (4 - k) loc).r
          = lib.color_hsl_to_rgb
              ⟨wrap_float (loc.hsl.hue + -(type.strength_mult * strength * k / 400)),
                loc.hsl.saturation, loc.hsl.lightness⟩)
      ∧ (type.component_id = COMPONENT_ID_HSL_SATURATION →
        (calc_slot lib type strength (4 + k) loc).r
            = lib.color_hsl_to_rgb
                ⟨loc.hsl.hue,
                  clamp_float (loc.hsl.saturation + type.strength_mult * strength * k / 400) 0 1,
                  loc.hsl.lightness⟩
          ∧ (calc_slot lib type strength (4 - k) loc).r
            = lib.color_hsl_to_rgb
                ⟨loc.hsl.hue,
                  clamp_float
                    (loc.hsl.saturation + -(type.strength_mult * strength * k / 400)) 0 1,
                  loc.hsl.lightness⟩)
      ∧ (type.component_id = COMPONENT_ID_HSL_LIGHTNESS →
        (calc_slot lib type strength (4 + k) loc).r
            = lib.color_hsl_to_rgb
                ⟨loc.hsl.hue, loc.hsl.saturation,
                  clamp_float (loc.hsl.lightness + type.strength_mult * strength * k / 400) 0 1⟩
          ∧ (calc_slot lib type strength (4 - k) loc).r
            = lib.color_hsl_to_rgb
                ⟨loc.hsl.hue, loc.hsl.saturation,
                  clamp_float
                    (loc.hsl.lightness + -(type.strength_mult * strength * k / 400)) 0 1⟩)
      ∧ (type.component_id = COMPONENT_ID_LAB_LIGHTNESS →
        (calc_slot lib type strength (4 + k) loc).r
            = lib.color_rgb_normalize (lib.color_lab_to_rgb_d50
                ⟨clamp_float (loc.lab.L + type.strength_mult * strength * k / 4) 0 100,
                  loc.lab.a, loc.lab.b⟩)
          ∧ (calc_slot lib type strength (4 - k) loc).r
            = lib.color_rgb_normalize (lib.color_lab_to_rgb_d50
                ⟨clamp_float (loc.lab.L + -(type.strength_mult * strength * k / 4)) 0 100,
                  loc.lab.a, loc.lab.b⟩)) := by
  refine ⟨fun ht => ⟨?_, ?_⟩, fun ht => ⟨?_, ?_⟩, fun ht => ⟨?_, ?_⟩, fun ht => ⟨?_, ?_⟩⟩
  · simp [calc_slot, ht, slot_offset_add]
  · simp [calc_slot, ht, slot_offset_sub k hk4, neg_div]
  · simp [calc_slot, ht, slot_offset_add, COMPONENT_ID_HSL_HUE, COMPONENT_ID_HSL_SATURATION]
  · simp [calc_slot, ht, slot_offset_sub k hk4, neg_div, COMPONENT_ID_HSL_HUE,
      COMPONENT_ID_HSL_SATURATION]
  · simp [calc_slot, ht, slot_offset_add, COMPONENT_ID_HSL_HUE, COMPONENT_ID_HSL_SATURATION,
      COMPONENT_ID_HSL_LIGHTNESS]
  · simp [calc_slot, ht, slot_offset_sub k hk4, neg_div, COMPONENT_ID_HSL_HUE,
      COMPONENT_ID_HSL_SATURATION, COMPONENT_ID_HSL_LIGHTNESS]
  · simp [calc_slot, ht, slot_offset_add, COMPONENT_ID_HSL_HUE, COMPONENT_ID_HSL_SATURATION,
      COMPONENT_ID_HSL_LIGHTNESS, COMPONENT_ID_LAB_LIGHTNESS]
  · simp [calc_slot, ht, slot_offset_sub k hk4, neg_div, COMPONENT_ID_HSL_HUE,
      COMPONENT_ID_HSL_SATURATION, COMPONENT_ID_HSL_LIGHTNESS, COMPONENT_ID_LAB_LIGHTNESS]

/-- Claim C4.  On a panel laid out as `source_implement` lays it out, one run
of `calc` makes exactly 24 widget writes: for the lines 0, 1, 2 in turn, the
offsets `k = -4, -3, -2, -1, 1, 2, 3, 4` in this order, slot `k + 4` receiving
the variation of the line's base colour at offset `k`.  Offset 0 does not occur,
and the centre slot of every line keeps the colour it had. -/
theorem calc_writes_eight_slots_per_line (lib : ColorLib) (p : Panel)
    (preview save_settings : Bool) (hwf : WellFormed p.args) :
    (calc_variations lib p preview save_settings).gtk.set_log
        = p.gtk.set_log ++ ([0, 1, 2] : List Nat).flatMap (fun i =>
            ([-4, -3, -2, -1, 1, 2, 3, 4] : List ℤ).map (fun (k : ℤ) =>
              ((p.args.color i).var_colors (k + 4).toNat,
                compute_variation lib (p.gtk.widget_color (p.args.color i).color)
                  (p.args.color i).type p.args.strength k)))
      ∧ ∀ i, i < MAX_COLOR_LINES →
          (calc_variations lib p preview save_settings).gtk.widget_color
              ((p.args.color i).var_colors (VAR_COLOR_WIDGETS / 2))
            = p.gtk.widget_color ((p.args.color i).var_colors (VAR_COLOR_WIDGETS / 2)) := by
  constructor
  · rw [calc_gtk lib p preview save_settings hwf, apply_writes_log]
    simp [panel_writes, line_writes]
  · intro i hi
    have h := (calc_keeps_base lib p preview save_settings hwf).1 i hi
    rw [hwf.1 i hi] at h
    exact h

/-- Witness for C4: the layout `demo_args` is well formed, and there the run
of `calc` leaves the centre slot of line 1 (pointer 15) as it was. -/
theorem calc_writes_eight_slots_per_line_witness :
    WellFormed
        (Panel.mk (demo_args type_hsl_hue type_hsl_saturation type_lab_lightness 30)
          (demo_gtk ⟨1, 0, 0⟩ ⟨0, 1, 0⟩ ⟨0, 0, 1⟩ ⟨1, 1, 1⟩)).args
      ∧ (calc_variations lib_id
            (Panel.mk (demo_args type_hsl_hue type_hsl_saturation type_lab_lightness 30)
              (demo_gtk ⟨1, 0, 0⟩ ⟨0, 1, 0⟩ ⟨0, 0, 1⟩ ⟨1, 1, 1⟩)) true false).gtk.widget_color 15
          = ⟨0, 1, 0⟩ := by
  have hwf : WellFormed
      (Panel.mk (demo_args type_hsl_hue type_hsl_saturation type_lab_lightness 30)
        (demo_gtk ⟨1, 0, 0⟩ ⟨0, 1, 0⟩ ⟨0, 0, 1⟩ ⟨1, 1, 1⟩)).args :=
    demo_args_wf _ _ _ _ (by decide) (by decide) (by decide)
  refine ⟨hwf, ?_⟩
  exact ((calc_writes_eight_slots_per_line lib_id _ true false hwf).2 1 (by decide)).trans
    (by simp [demo_args, demo_gtk, half_slots])

/-- Claim C6, the code at a failing input.  On the panel created from empty
settings (all base colours mid-grey), `set_rgb_color_by_widget` called with the
base-colour widget of line 0 and the colour red returns 0 and leaves lines 1 and
2 and the `all_colors` widget red as well: the test `if (args->all_colors)` is
true for every created panel, so every call sets all lines. -/
theorem set_rgb_color_by_widget_line_widget_sets_all (lib : ColorLib) :
    ∃ q, set_rgb_color_by_widget lib (source_implement lib (fun _ => none)) ⟨1, 0, 0⟩
          ((source_implement lib (fun _ => none)).args.color 0).color = some (0, q)
      ∧ (source_implement lib (fun _ => none)).gtk.widget_color
          ((source_implement lib (fun _ => none)).args.color 1).color = ⟨1 / 2, 1 / 2, 1 / 2⟩
      ∧ q.gtk.widget_color ((source_implement lib (fun _ => none)).args.color 1).color
          = ⟨1, 0, 0⟩
      ∧ q.gtk.widget_color ((source_implement lib (fun _ => none)).args.color 2).color
          = ⟨1, 0, 0⟩
      ∧ q.gtk.widget_color (source_implement lib (fun _ => none)).args.all_colors
          = ⟨1, 0, 0⟩ := by
  obtain ⟨q, hq, _, _, hb, ha⟩ := set_rgb_color_all lib (source_implement lib (fun _ => none))
    ⟨1, 0, 0⟩ (source_implement_wf lib _)
  refine ⟨q, ?_, ?_, hb 1 (by decide), hb 2 (by decide), ha⟩
  · have hall : (source_implement lib (fun _ => none)).args.all_colors ≠ 0 := by
      rw [(source_implement_args lib _).2.1]
      decide
    simp only [set_rgb_color_by_widget, if_pos hall, hq, Option.map_some']
  · exact (source_implement_colors lib _).1 1 (by decide)

/-- Claim C7.  Let `widget` be a radio item attached to the base-colour widget
of line `i` of a well-formed panel, carrying an axis of the table.  If the item
is active, `type_toggled_cb` succeeds and afterwards: the widget layout is the
same; line `i` has the item's axis, its base colour is unchanged and each of its
8 non-centre slots holds the variation of that base colour under the new axis at
the current strength; every other line keeps its axis and base colour, and keeps
all 8 variation slots provided they were up to date before the call.  If the
item is not active the panel is returned unchanged. -/
theorem type_toggled_cb_effect (lib : ColorLib) (p : Panel) (widget : MenuItem) (i : Nat)
    (hwf : WellFormed p.args) (hi : i < MAX_COLOR_LINES)
    (hw : widget.color_widget = (p.args.color i).color)
    (ht : widget.variation_type ∈ variation_types) :
    (widget.active = true →
      ∃ q, type_toggled_cb lib widget p = some q
        ∧ (∀ k, (q.args.color k).color = (p.args.color k).color
            ∧ (q.args.color k).var_colors = (p.args.color k).var_colors)
        ∧ q.args.strength = p.args.strength
        ∧ (q.args.color i).type = widget.variation_type
        ∧ q.gtk.widget_color (p.args.color i).color = p.gtk.widget_color (p.args.color i).color
        ∧ (∀ j, j < VAR_COLOR_WIDGETS + 1 → j ≠ 4 →
            q.gtk.widget_color ((p.args.color i).var_colors j)
              = compute_variation lib (p.gtk.widget_color (p.args.color i).color)
                  widget.variation_type p.args.strength ((j : ℤ) - 4))
        ∧ ∀ k, k < MAX_COLOR_LINES → k ≠ i →
            (q.args.color k).type = (p.args.color k).type
              ∧ q.gtk.widget_color (p.args.color k).color
                = p.gtk.widget_color (p.args.color k).color
              ∧ ((∀ j, j < VAR_COLOR_WIDGETS + 1 → j ≠ 4 →
                    p.gtk.widget_color ((p.args.color k).var_colors j)
                      = compute_variation lib (p.gtk.widget_color (p.args.color k).color)
                          (p.args.color k).type p.args.strength ((j : ℤ) - 4)) →
                  ∀ j, j < VAR_COLOR_WIDGETS + 1 → j ≠ 4 →
                    q.gtk.widget_color ((p.args.color k).var_colors j)
                      = p.gtk.widget_color ((p.args.color k).var_colors j)))
      ∧ (widget.active = false → type_toggled_cb lib widget p = some p) := by
  constructor
  · intro hact
    obtain ⟨p2, hrun, hwf2, hcol, hstr, _, _, hf⟩ :=
      type_toggled_cb_run lib p widget i hwf hi hw ht hact
    have hbase := (calc_keeps_base lib p2 true false hwf2).1
    refine ⟨calc_variations lib p2 true false, hrun, fun k => ⟨(hf k).1, (hf k).2.1⟩, hstr,
      ?_, ?_, ?_, ?_⟩
    · exact ((hf i).2.2).trans (if_pos rfl)
    · have h := hbase i hi
      rw [(hf i).1, hcol] at h
      exact h
    · intro j hj h4
      have h := calc_slot_value lib p2 true false hwf2 i j hi hj h4
      rw [(hf i).1, (hf i).2.1, (hf i).2.2, if_pos rfl, hcol, hstr] at h
      exact h
    · intro k hk hki
      refine ⟨((hf k).2.2).trans (if_neg hki), ?_, ?_⟩
      · have h := hbase k hk
        rw [(hf k).1, hcol] at h
        exact h
      · intro hup j hj h4
        have h := calc_slot_value lib p2 true false hwf2 k j hk hj h4
        rw [(hf k).1, (hf k).2.1, (hf k).2.2, if_neg hki, hcol, hstr] at h
        rw [h, hup j hj h4]
  · intro hact
    simp [type_toggled_cb, hact]

/-- Witness for C7: on the `demo_args` layout after a run of `calc`, the active
item of line 1 carrying Lab-Lightness switches line 1 to that axis and leaves
slot 0 of line 0 (pointer 2) as it was. -/
theorem type_toggled_cb_effect_witness :
    WellFormed (calc_variations lib_id
        (Panel.mk (demo_args type_hsl_hue type_hsl_saturation type_hsl_lightness 30)
          (demo_gtk ⟨1 / 4, 1 / 2, 1 / 2⟩ ⟨3 / 4, 1 / 2, 1 / 2⟩ ⟨0, 0, 1⟩ ⟨1, 1, 1⟩))
        true false).args
      ∧ (1 : Nat) < MAX_COLOR_LINES
      ∧ type_lab_lightness ∈ variation_types
      ∧ (type_toggled_cb lib_id ⟨15, type_lab_lightness, true⟩
            (calc_variations lib_id
              (Panel.mk (demo_args type_hsl_hue type_hsl_saturation type_hsl_lightness 30)
                (demo_gtk ⟨1 / 4, 1 / 2, 1 / 2⟩ ⟨3 / 4, 1 / 2, 1 / 2⟩ ⟨0, 0, 1⟩ ⟨1, 1, 1⟩))
              true false)).map (fun q => ((q.args.color 1).type, q.gtk.widget_color 2))
          = some (type_lab_lightness,
              (calc_variations lib_id
                (Panel.mk (demo_args type_hsl_hue type_hsl_saturation type_hsl_lightness 30)
                  (demo_gtk ⟨1 / 4, 1 / 2, 1 / 2⟩ ⟨3 / 4, 1 / 2, 1 / 2⟩ ⟨0, 0, 1⟩ ⟨1, 1, 1⟩))
                true false).gtk.widget_color 2) := by
  have hwf0 : WellFormed
      (Panel.mk (demo_args type_hsl_hue type_hsl_saturation type_hsl_lightness 30)
        (demo_gtk ⟨1 / 4, 1 / 2, 1 / 2⟩ ⟨3 / 4, 1 / 2, 1 / 2⟩ ⟨0, 0, 1⟩ ⟨1, 1, 1⟩)).args :=
    demo_args_wf _ _ _ _ (by decide) (by decide) (by decide)
  have hwf : WellFormed (calc_variations lib_id
      (Panel.mk (demo_args type_hsl_hue type_hsl_saturation type_hsl_lightness 30)
        (demo_gtk ⟨1 / 4, 1 / 2, 1 / 2⟩ ⟨3 / 4, 1 / 2, 1 / 2⟩ ⟨0, 0, 1⟩ ⟨1, 1, 1⟩))
      true false).args := hwf0
  refine ⟨hwf, by decide, by decide, ?_⟩
  obtain ⟨q, hq, _, _, htype, _, _, hothers⟩ :=
    (type_toggled_cb_effect lib_id _ ⟨15, type_lab_lightness, true⟩ 1 hwf (by decide) rfl
      (by decide)).1 rfl
  have hslot := (hothers 0 (by decide) (by decide)).2.2
    (fun j hj h4 => calc_up_to_date lib_id _ true false hwf0 0 j (by decide) hj h4)
    0 (by decide) (by decide)
  rw [hq, Option.map_some', htype]
  exact congrArg (fun c => some (type_lab_lightness, c)) hslot

/-- Claim C8.  The four identifiers of `variation_types` are `hsl_hue`,
`hsl_saturation`, `hsl_lightness`, `lab_lightness`, pairwise different; and for a
line `i` whose axis is an entry of the table, `source_destroy` stores that
entry's identifier under `type<i>` and `source_implement`, run on the stored
settings, gives line `i` the same entry again. -/
theorem axis_identifier_round_trip (lib : ColorLib) (p : Panel) (i : Nat)
    (hi : i < MAX_COLOR_LINES) (ht : (p.args.color i).type ∈ variation_types) :
    variation_types.map VariationType.unique_name
        = ["hsl_hue", "hsl_saturation", "hsl_lightness", "lab_lightness"]
      ∧ (variation_types.map VariationType.unique_name).Nodup
      ∧ source_destroy p (sprintf_d "type" i)
        = some (DynvValue.string (p.args.color i).type.unique_name)
      ∧ ((source_implement lib (source_destroy p)).args.color i).type
        = (p.args.color i).type := by
  have hget := ((source_destroy_get p).1 i hi).1
  refine ⟨by decide, by decide, hget, ?_⟩
  rw [(source_implement_args lib _).1, implement_settings_type _ i hi]
  simp only [loaded_type, dynv_get_string_wd, hget]
  rw [find_unique_name _ ht]

/-- Witness for C8: line 0 holding Lab-Lightness, the last entry of the table,
gets Lab-Lightness back after teardown and creation. -/
theorem axis_identifier_round_trip_witness :
    (0 : Nat) < MAX_COLOR_LINES
      ∧ ((demo_args type_lab_lightness type_hsl_hue type_hsl_saturation 30).color 0).type
          ∈ variation_types
      ∧ ((source_implement lib_id
            (source_destroy
              (Panel.mk (demo_args type_lab_lightness type_hsl_hue type_hsl_saturation 30)
                (demo_gtk ⟨1, 0, 0⟩ ⟨0, 1, 0⟩ ⟨0, 0, 1⟩ ⟨1, 1, 1⟩)))).args.color 0).type
          = type_lab_lightness :=
  ⟨by decide, by decide,
    (axis_identifier_round_trip lib_id
      (Panel.mk (demo_args type_lab_lightness type_hsl_hue type_hsl_saturation 30)
        (demo_gtk ⟨1, 0, 0⟩ ⟨0, 1, 0⟩ ⟨0, 0, 1⟩ ⟨1, 1, 1⟩)) 0 (by decide) (by decide)).2.2.2⟩

/-- Claim C9.  At panel creation a line `i` whose key `type<i>` is absent from
the settings gets the axis Lab-Lightness, the table entry with identifier
`lab_lightness` and component id 4. -/
theorem absent_type_is_lab_lightness (lib : ColorLib) (ns : dynvSystem) (i : Nat)
    (hi : i < MAX_COLOR_LINES) (habs : ns (sprintf_d "type" i) = none) :
    ((source_implement lib ns).args.color i).type = type_lab_lightness
      ∧ type_lab_lightness ∈ variation_types
      ∧ type_lab_lightness.unique_name = "lab_lightness"
      ∧ type_lab_lightness.component_id = 4 := by
  refine ⟨?_, by decide, rfl, rfl⟩
  rw [(source_implement_args lib _).1, implement_settings_type _ i hi]
  have hfind : variation_types.find? (fun t => t.unique_name = "lab_lightness")
      = some type_lab_lightness := by
    decide
  simp only [loaded_type, dynv_get_string_wd, habs, hfind]

/-- Witness for C9: with empty settings all three lines use Lab-Lightness. -/
theorem absent_type_is_lab_lightness_witness :
    ((0 : Nat) < MAX_COLOR_LINES ∧ (1 : Nat) < MAX_COLOR_LINES ∧ (2 : Nat) < MAX_COLOR_LINES)
      ∧ (fun _ => none : dynvSystem) (sprintf_d "type" 0) = none
      ∧ ((source_implement lib_id (fun _ => none)).args.color 0).type = type_lab_lightness
      ∧ ((source_implement lib_id (fun _ => none)).args.color 1).type = type_lab_lightness
      ∧ ((source_implement lib_id (fun _ => none)).args.color 2).type = type_lab_lightness :=
  ⟨⟨by decide, by decide, by decide⟩, rfl,
    (absent_type_is_lab_lightness lib_id (fun _ => none) 0 (by decide) rfl).1,
    (absent_type_is_lab_lightness lib_id (fun _ => none) 1 (by decide) rfl).1,
    (absent_type_is_lab_lightness lib_id (fun _ => none) 2 (by decide) rfl).1⟩

/-- Claim C10 as stated fails.  A panel is created from settings holding
strength 50, the slider is moved to 80 (which runs `update`), and the panel is
torn down: the settings still hold strength 50, not the current value 80. -/
theorem source_destroy_keeps_old_strength :
    (update lib_id
        { source_implement lib_id (dynv_set_float (fun _ => none) "strength" 50) with
          args := { (source_implement lib_id
              (dynv_set_float (fun _ => none) "strength" 50)).args with
            strength := 80 } }).args.strength = 80
      ∧ source_destroy
          (update lib_id
            { source_implement lib_id (dynv_set_float (fun _ => none) "strength" 50) with
              args := { (source_implement lib_id
                  (dynv_set_float (fun _ => none) "strength" 50)).args with
                strength := 80 } }) "strength"
        = some (DynvValue.float 50)
      ∧ source_destroy
          (update lib_id
            { source_implement lib_id (dynv_set_float (fun _ => none) "strength" 50) with
              args := { (source_implement lib_id
                  (dynv_set_float (fun _ => none) "strength" 50)).args with
                strength := 80 } }) "strength"
        ≠ some (DynvValue.float 80) := by
  have h : source_destroy
      (update lib_id
        { source_implement lib_id (dynv_set_float (fun _ => none) "strength" 50) with
          args := { (source_implement lib_id
              (dynv_set_float (fun _ => none) "strength" 50)).args with
            strength := 80 } }) "strength"
      = some (DynvValue.float 50) := by
    rw [(source_destroy_get _).2.2 "strength" (by decide)]
    show (source_implement lib_id (dynv_set_float (fun _ => none) "strength" 50)).args.params
      "strength" = _
    rw [(source_implement_args lib_id _).2.2.1]
    simp [dynv_set_float]
  refine ⟨rfl, h, ?_⟩
  rw [h]
  intro hc
  have h2 : (50 : ℚ) = 80 := by
    injection hc with hc
    injection hc
  norm_num at h2

/-- Claim C10, amended.  `source_destroy` stores under `type0 .. type2` the
identifier of each line's axis, under `color0 .. color2` each line's base colour
and under `all_colors` the colour of the `all_colors` widget; it leaves the key
`strength` as it was.  The strength is stored by `calc` when `save_settings` is
set, that is by `source_deactivate`, which stores the current strength and does
not change it. -/
theorem source_destroy_snapshot (lib : ColorLib) (p : Panel) :
    (∀ i, i < MAX_COLOR_LINES →
      source_destroy p (sprintf_d "type" i)
          = some (DynvValue.string (p.args.color i).type.unique_name)
        ∧ source_destroy p (sprintf_d "color" i)
          = some (DynvValue.color (gtk_color_get_color p.gtk (p.args.color i).color)))
      ∧ source_destroy p "all_colors"
        = some (DynvValue.color (gtk_color_get_color p.gtk p.args.all_colors))
      ∧ source_destroy p "strength" = p.args.params "strength"
      ∧ (source_deactivate lib p).args.params "strength"
        = some (DynvValue.float p.args.strength)
      ∧ (source_deactivate lib p).args.strength = p.args.strength := by
  refine ⟨(source_destroy_get p).1, (source_destroy_get p).2.1,
    (source_destroy_get p).2.2 "strength" (by decide), ?_, rfl⟩
  simp [source_deactivate, calc_variations, dynv_set_float]

/-- Witness for C10 (amended): on the `demo_args` layout teardown stores the
identifier and the base colour of line 1. -/
theorem source_destroy_snapshot_witness :
    (1 : Nat) < MAX_COLOR_LINES
      ∧ source_destroy
          (Panel.mk (demo_args type_lab_lightness type_hsl_hue type_hsl_saturation 30)
            (demo_gtk ⟨1, 0, 0⟩ ⟨0, 1, 0⟩ ⟨0, 0, 1⟩ ⟨1, 1, 1⟩)) "type1"
        = some (DynvValue.string "hsl_hue")
      ∧ source_destroy
          (Panel.mk (demo_args type_lab_lightness type_hsl_hue type_hsl_saturation 30)
            (demo_gtk ⟨1, 0, 0⟩ ⟨0, 1, 0⟩ ⟨0, 0, 1⟩ ⟨1, 1, 1⟩)) "color1"
        = some (DynvValue.color ⟨0, 1, 0⟩) := by
  have h := (source_destroy_snapshot lib_id
    (Panel.mk (demo_args type_lab_lightness type_hsl_hue type_hsl_saturation 30)
      (demo_gtk ⟨1, 0, 0⟩ ⟨0, 1, 0⟩ ⟨0, 0, 1⟩ ⟨1, 1, 1⟩))).1 1 (by decide)
  rw [sprintf_d_keys.2.1, sprintf_d_keys.2.2.2.2.1] at h
  refine ⟨by decide, h.1.trans ?_, h.2.trans ?_⟩
  · simp [demo_args, type_hsl_hue]
  · simp [demo_args, demo_gtk, gtk_color_get_color]


/-- Claim C12.  In a panel laid out as `source_implement` lays it out,
`identify_color_widget` labels the `all_colors` widget "all colors", the centre
widget of line `i` "primary i+1", the non-centre slot `j` of line `i`
"result n line i+1" with `n = j + 1` before the centre and `n = j` behind it, and
any widget that is none of the 28 "unknown"; listed line by line from left to
right the 28 labels are the ones below, and they are pairwise different. -/
theorem identify_color_widget_labels (args : VariationsArgs) (hwf : WellFormed args) :
    identify_color_widget args.all_colors args = "all colors"
      ∧ (∀ i, i < MAX_COLOR_LINES →
          identify_color_widget (args.color i).color args = "primary " ++ toString (i + 1))
      ∧ (∀ i, i < MAX_COLOR_LINES → ∀ j, j < VAR_COLOR_WIDGETS + 1 → j ≠ 4 →
          identify_color_widget ((args.color i).var_colors j) args
            = "result " ++ toString (if j < 4 then j + 1 else j) ++ " line "
                ++ toString (i + 1))
      ∧ (∀ w, w ≠ args.all_colors →
          (∀ i, i < MAX_COLOR_LINES → ∀ j, j < VAR_COLOR_WIDGETS + 1 →
            w ≠ (args.color i).var_colors j) →
          identify_color_widget w args = "unknown")
      ∧ (panel_widgets args).map (fun w => identify_color_widget w args)
          = ["all colors",
             "result 1 line 1", "result 2 line 1", "result 3 line 1", "result 4 line 1",
             "primary 1",
             "result 5 line 1", "result 6 line 1", "result 7 line 1", "result 8 line 1",
             "result 1 line 2", "result 2 line 2", "result 3 line 2", "result 4 line 2",
             "primary 2",
             "result 5 line 2", "result 6 line 2", "result 7 line 2", "result 8 line 2",
             "result 1 line 3", "result 2 line 3", "result 3 line 3", "result 4 line 3",
             "primary 3",
             "result 5 line 3", "result 6 line 3", "result 7 line 3", "result 8 line 3"]
      ∧ ((panel_widgets args).map (fun w => identify_color_widget w args)).Nodup := by
  have hlist : (panel_widgets args).map (fun w => identify_color_widget w args)
      = ["all colors",
         "result 1 line 1", "result 2 line 1", "result 3 line 1", "result 4 line 1",
         "primary 1",
         "result 5 line 1", "result 6 line 1", "result 7 line 1", "result 8 line 1",
         "result 1 line 2", "result 2 line 2", "result 3 line 2", "result 4 line 2",
         "primary 2",
         "result 5 line 2", "result 6 line 2", "result 7 line 2", "result 8 line 2",
         "result 1 line 3", "result 2 line 3", "result 3 line 3", "result 4 line 3",
         "primary 3",
         "result 5 line 3", "result 6 line 3", "result 7 line 3", "result 8 line 3"] := by
    have h0 : (0 : Nat) < MAX_COLOR_LINES := by decide
    have h1 : (1 : Nat) < MAX_COLOR_LINES := by decide
    have h2 : (2 : Nat) < MAX_COLOR_LINES := by decide
    simp only [panel_widgets, List.flatMap_cons, List.flatMap_nil, List.map_cons, List.map_nil,
      List.append_nil, List.cons_append, List.nil_append, List.singleton_append]
    rw [identify_slot_label args hwf 0 0 h0 (by decide),
      identify_slot_label args hwf 0 1 h0 (by decide),
      identify_slot_label args hwf 0 2 h0 (by decide),
      identify_slot_label args hwf 0 3 h0 (by decide),
      identify_slot_label args hwf 0 4 h0 (by decide),
      identify_slot_label args hwf 0 5 h0 (by decide),
      identify_slot_label args hwf 0 6 h0 (by decide),
      identify_slot_label args hwf 0 7 h0 (by decide),
      identify_slot_label args hwf 0 8 h0 (by decide),
      identify_slot_label args hwf 1 0 h1 (by decide),
      identify_slot_label args hwf 1 1 h1 (by decide),
      identify_slot_label args hwf 1 2 h1 (by decide),
      identify_slot_label args hwf 1 3 h1 (by decide),
      identify_slot_label args hwf 1 4 h1 (by decide),
      identify_slot_label args hwf 1 5 h1 (by decide),
      identify_slot_label args hwf 1 6 h1 (by decide),
      identify_slot_label args hwf 1 7 h1 (by decide),
      identify_slot_label args hwf 1 8 h1 (by decide),
      identify_slot_label args hwf 2 0 h2 (by decide),
      identify_slot_label args hwf 2 1 h2 (by decide),
      identify_slot_label args hwf 2 2 h2 (by decide),
      identify_slot_label args hwf 2 3 h2 (by decide),
      identify_slot_label args hwf 2 4 h2 (by decide),
      identify_slot_label args hwf 2 5 h2 (by decide),
      identify_slot_label args hwf 2 6 h2 (by decide),
      identify_slot_label args hwf 2 7 h2 (by decide),
      identify_slot_label args hwf 2 8 h2 (by decide)]
    simp only [identify_color_widget, if_true]
    decide
  refine ⟨by simp [identify_color_widget], ?_, ?_, ?_, hlist, ?_⟩
  · intro i hi
    have h := identify_slot_label args hwf i 4 hi (by decide)
    rw [if_pos rfl] at h
    rw [hwf.1 i hi, half_slots, h]
    rfl
  · intro i hi j hj h4
    have hj9 : j < 9 := hj
    rw [identify_slot_label args hwf i j hi hj, if_neg h4]
    interval_cases j <;> first | exact absurd rfl h4 | rfl
  · intro w hw hslots
    have hmiss : ∀ i, i < MAX_COLOR_LINES → ∀ is,
        identify_lines args w (i :: is) = identify_lines args w is := by
      intro i hi is
      apply identify_lines_skip
      · intro he
        rw [hwf.1 i hi] at he
        exact hslots i hi _ (by decide) he.symm
      · apply identify_slots_miss
        intro x hx he
        exact hslots i hi x (range_slots_lt x hx) he.symm
    simp only [identify_color_widget, if_neg (Ne.symm hw), range_lines]
    rw [hmiss 0 (by decide), hmiss 1 (by decide), hmiss 2 (by decide)]
    rfl
  · rw [hlist]
    decide

/-- Witness for C12: on the panel created from empty settings the last slot of
line 0 is "result 8 line 1" and the base-colour widget of line 2 is
"primary 3". -/
theorem identify_color_widget_labels_witness :
    WellFormed (source_implement lib_id (fun _ => none)).args
      ∧ identify_color_widget
          (((source_implement lib_id (fun _ => none)).args.color 0).var_colors 8)
          (source_implement lib_id (fun _ => none)).args = "result 8 line 1"
      ∧ identify_color_widget ((source_implement lib_id (fun _ => none)).args.color 2).color
          (source_implement lib_id (fun _ => none)).args = "primary 3" :=
  ⟨source_implement_wf lib_id _,
    (identify_color_widget_labels _ (source_implement_wf lib_id (fun _ => none))).2.2.1
      0 (by decide) 8 (by decide) (by decide),
    (identify_color_widget_labels _ (source_implement_wf lib_id (fun _ => none))).2.1
      2 (by decide)⟩

/-- Claim C11.  The panel `source_implement` returns is up to date: every
non-centre slot `j` of every line holds the variation of the line's base colour
under the line's axis and the current strength at offset `j - 4`.  On a
well-formed panel each mutation returns a well-formed, up-to-date panel:
`set_rgb_color` with a line index or with `(uint32_t)-1`, `type_toggled_cb` for
an active item of a line carrying an axis of the table, and `update` after a
change of the strength.  A second `update` changes no widget colour. -/
theorem panel_stays_up_to_date (lib : ColorLib) :
    (∀ ns, WellFormed (source_implement lib ns).args ∧ UpToDate lib (source_implement lib ns))
      ∧ ∀ p : Panel, WellFormed p.args →
          (∀ c idx, idx < MAX_COLOR_LINES ∨ idx = uint32_cast (-1) →
            ∃ q, set_rgb_color lib p c idx = some q ∧ WellFormed q.args ∧ UpToDate lib q)
          ∧ (∀ (widget : MenuItem) i, i < MAX_COLOR_LINES →
              widget.color_widget = (p.args.color i).color →
              widget.variation_type ∈ variation_types → widget.active = true →
              ∃ q, type_toggled_cb lib widget p = some q ∧ WellFormed q.args
                ∧ UpToDate lib q)
          ∧ (∀ strength : ℚ,
              WellFormed (update lib { p with args := { p.args with strength := strength } }).args
                ∧ (update lib { p with args := { p.args with strength := strength } }).args.strength
                  = strength
                ∧ UpToDate lib (update lib { p with args := { p.args with strength := strength } }))
          ∧ (update lib (update lib p)).gtk.widget_color = (update lib p).gtk.widget_color := by
  have hupd : ∀ p : Panel, WellFormed p.args →
      WellFormed (update lib p).args ∧ UpToDate lib (update lib p) := by
    intro p hwf
    have hwf2 : WellFormed
        (Panel.mk { p.args with preview_color_list := [] } p.gtk).args := hwf
    exact ⟨hwf, calc_establishes_up_to_date lib _ true false hwf2⟩
  refine ⟨fun ns => ⟨source_implement_wf lib ns, ?_⟩, fun p hwf => ⟨?_, ?_, ?_, ?_⟩⟩
  · have hwf2 : WellFormed
        (Panel.mk { (implement_settings ns).args with preview_color_list := [] }
          (implement_settings ns).gtk).args := implement_settings_wf ns
    exact calc_establishes_up_to_date lib _ true false hwf2
  · intro c idx hidx
    rcases hidx with h | h
    · rw [set_rgb_color_line lib p c idx h]
      exact ⟨_, rfl, hupd (Panel.mk p.args (gtk_color_set_color (p.args.color idx).color c p.gtk))
        hwf⟩
    · subst h
      have hwf3 : WellFormed
          (Panel.mk p.args
            ((List.range MAX_COLOR_LINES).foldl
              (fun g i => gtk_color_set_color (p.args.color i).color c g)
              (gtk_color_set_color p.args.all_colors c p.gtk))).args := hwf
      exact ⟨_, if_pos rfl, hupd _ hwf3⟩
  · intro widget i hi hw ht hact
    obtain ⟨p2, hrun, hwf2, _⟩ := type_toggled_cb_run lib p widget i hwf hi hw ht hact
    exact ⟨_, hrun, hwf2, calc_establishes_up_to_date lib p2 true false hwf2⟩
  · intro strength
    have hwf4 : WellFormed (Panel.mk { p.args with strength := strength } p.gtk).args := hwf
    exact ⟨(hupd _ hwf4).1, rfl, (hupd _ hwf4).2⟩
  · have h1 := hupd p hwf
    have hwf5 : WellFormed
        (Panel.mk { (update lib p).args with preview_color_list := [] }
          (update lib p).gtk).args := h1.1
    have hup5 : UpToDate lib
        (Panel.mk { (update lib p).args with preview_color_list := [] }
          (update lib p).gtk) := h1.2
    exact calc_noop_of_up_to_date lib _ true false hwf5 hup5

/-- Witness for C11: on the `demo_args` layout, moving the strength to 50 and
running `update` gives an up-to-date panel with strength 50, and setting line 1
to red gives a panel. -/
theorem panel_stays_up_to_date_witness :
    WellFormed
        (Panel.mk (demo_args type_hsl_hue type_hsl_saturation type_lab_lightness 30)
          (demo_gtk ⟨1, 0, 0⟩ ⟨0, 1, 0⟩ ⟨0, 0, 1⟩ ⟨1, 1, 1⟩)).args
      ∧ ((1 : Nat) < MAX_COLOR_LINES ∨ (1 : Nat) = uint32_cast (-1))
      ∧ UpToDate lib_id
          (update lib_id
            { Panel.mk (demo_args type_hsl_hue type_hsl_saturation type_lab_lightness 30)
                (demo_gtk ⟨1, 0, 0⟩ ⟨0, 1, 0⟩ ⟨0, 0, 1⟩ ⟨1, 1, 1⟩) with
              args := { (demo_args type_hsl_hue type_hsl_saturation type_lab_lightness 30) with
                strength := 50 } })
      ∧ (set_rgb_color lib_id
            (Panel.mk (demo_args type_hsl_hue type_hsl_saturation type_lab_lightness 30)
              (demo_gtk ⟨1, 0, 0⟩ ⟨0, 1, 0⟩ ⟨0, 0, 1⟩ ⟨1, 1, 1⟩)) ⟨1, 0, 0⟩ 1).isSome
          = true := by
  have hwf : WellFormed
      (Panel.mk (demo_args type_hsl_hue type_hsl_saturation type_lab_lightness 30)
        (demo_gtk ⟨1, 0, 0⟩ ⟨0, 1, 0⟩ ⟨0, 0, 1⟩ ⟨1, 1, 1⟩)).args :=
    demo_args_wf _ _ _ _ (by decide) (by decide) (by decide)
  have h := (panel_stays_up_to_date lib_id).2 _ hwf
  refine ⟨hwf, Or.inl (by decide), (h.2.2.1 50).2.2, ?_⟩
  obtain ⟨q, hq, _⟩ := h.1 ⟨1, 0, 0⟩ 1 (Or.inl (by decide))
  rw [hq]
  rfl

/-- Claim C13.  At panel creation, a line `i` whose key `type<i>` holds a string
that is no identifier of the table gets the table entry at index `i` (HSL-Hue,
HSL-Saturation, HSL-Lightness for lines 0, 1, 2), not Lab-Lightness; and
whatever the settings hold, the axis of every line is an entry of the table. -/
theorem unknown_identifier_keeps_line_entry (lib : ColorLib) (ns : dynvSystem) :
    (∀ i, i < MAX_COLOR_LINES → ∀ s : String,
        ns (sprintf_d "type" i) = some (DynvValue.string s) →
        (∀ t ∈ variation_types, t.unique_name ≠ s) →
        ((source_implement lib ns).args.color i).type
            = [type_hsl_hue, type_hsl_saturation, type_hsl_lightness].getD i type_lab_lightness
          ∧ ((source_implement lib ns).args.color i).type ≠ type_lab_lightness)
      ∧ ∀ i, i < MAX_COLOR_LINES →
          ((source_implement lib ns).args.color i).type ∈ variation_types := by
  constructor
  · intro i hi s hs hno
    have hi3 : i < 3 := hi
    have hfind : variation_types.find? (fun t => t.unique_name = s) = none := by
      rw [List.find?_eq_none]
      intro t ht
      simpa using hno t ht
    have htype : ((source_implement lib ns).args.color i).type
        = [type_hsl_hue, type_hsl_saturation, type_hsl_lightness].getD i type_lab_lightness := by
      rw [(source_implement_args lib ns).1, implement_settings_type ns i hi]
      simp only [loaded_type, dynv_get_string_wd, hs, hfind]
      interval_cases i <;> rfl
    refine ⟨htype, ?_⟩
    rw [htype]
    interval_cases i <;> decide
  · intro i hi
    rw [(source_implement_args lib ns).1, implement_settings_type ns i hi]
    exact loaded_type_mem ns i hi

/-- Witness for C13: with `type1 = "bogus"` line 1 gets HSL-Saturation. -/
theorem unknown_identifier_keeps_line_entry_witness :
    (1 : Nat) < MAX_COLOR_LINES
      ∧ dynv_set_string (fun _ => none) "type1" "bogus" (sprintf_d "type" 1)
          = some (DynvValue.string "bogus")
      ∧ ((source_implement lib_id
            (dynv_set_string (fun _ => none) "type1" "bogus")).args.color 1).type
          = type_hsl_saturation :=
  ⟨by decide, by decide,
    ((unknown_identifier_keeps_line_entry lib_id
        (dynv_set_string (fun _ => none) "type1" "bogus")).1 1 (by decide) "bogus"
      (by decide) (by decide)).1⟩

/-- Claim C14.  Every radio item `color_show_menu` builds for a widget carries
that widget and an axis of the table, and is built only when the widget is not
the `all_colors` widget and is the base-colour widget of some line.  For such
an item, whatever its check state when `toggled` fires and whatever the panel
has become since the menu was built (the base-colour pointers of the lines never
change), the row search of `type_toggled_cb` yields a line index in `0 .. 2`,
never `-1`, and the callback returns a panel.  For the `all_colors` widget and
for a widget that is no line's base-colour widget no radio item is built. -/
theorem type_toggled_cb_row_found (lib : ColorLib) (args : VariationsArgs) (p : Panel)
    (widget : GtkWidget) (hsame : ∀ i, (p.args.color i).color = (args.color i).color) :
    (∀ item ∈ color_show_menu widget args, ∀ active : Bool,
        item.color_widget = widget
          ∧ item.variation_type ∈ variation_types
          ∧ widget ≠ args.all_colors
          ∧ (∃ i, i < MAX_COLOR_LINES ∧ (p.args.color i).color = widget
              ∧ find_line p.args item.color_widget (List.range MAX_COLOR_LINES) = (i : ℤ))
          ∧ find_line p.args item.color_widget (List.range MAX_COLOR_LINES) ≠ -1
          ∧ (type_toggled_cb lib { item with active := active } p).isSome = true)
      ∧ (args.all_colors = widget → color_show_menu widget args = [])
      ∧ ((∀ i, i < MAX_COLOR_LINES → (args.color i).color ≠ widget) →
          color_show_menu widget args = []) := by
  refine ⟨?_, ?_, ?_⟩
  · intro item hitem active
    obtain ⟨hw, ht, hall, hline⟩ := mem_color_show_menu widget args item hitem
    obtain ⟨i, hi, hbase, hfind⟩ := find_line_of_show_menu_line args widget hline
    have hfind2 : find_line p.args item.color_widget (List.range MAX_COLOR_LINES) = (i : ℤ) := by
      rw [hw, find_line_congr p.args args widget hsame]
      exact hfind
    refine ⟨hw, ht, Ne.symm hall, ⟨i, hi, (hsame i).trans hbase, hfind2⟩, ?_, ?_⟩
    · rw [hfind2]
      have : (0 : ℤ) ≤ (i : ℤ) := Int.natCast_nonneg i
      omega
    · exact type_toggled_cb_some lib p { item with active := active } i hi hfind2
  · intro hall
    simp [color_show_menu, hall]
  · intro hno
    by_cases hall : args.all_colors = widget
    · simp [color_show_menu, hall]
    · have hline : show_menu_line args widget (List.range MAX_COLOR_LINES) = -1 := by
        simp [show_menu_line, range_lines, hno 0 (by decide), hno 1 (by decide),
          hno 2 (by decide)]
      simp [color_show_menu, hall, hline]

/-- Witness for C14: on the `demo_args` layout the menu of the base-colour
widget of line 1 (pointer 15) holds the HSL-Hue item, and `type_toggled_cb`
finds line 1 for it. -/
theorem type_toggled_cb_row_found_witness :
    (MenuItem.mk 15 type_hsl_hue false)
        ∈ color_show_menu 15 (demo_args type_hsl_hue type_hsl_saturation type_lab_lightness 30)
      ∧ find_line (demo_args type_hsl_hue type_hsl_saturation type_lab_lightness 30) 15
          (List.range MAX_COLOR_LINES) ≠ -1
      ∧ (type_toggled_cb lib_id (MenuItem.mk 15 type_hsl_hue true)
          (Panel.mk (demo_args type_hsl_hue type_hsl_saturation type_lab_lightness 30)
            (demo_gtk ⟨1, 0, 0⟩ ⟨0, 1, 0⟩ ⟨0, 0, 1⟩ ⟨1, 1, 1⟩))).isSome = true := by
  have hmem : (MenuItem.mk 15 type_hsl_hue false)
      ∈ color_show_menu 15
          (demo_args type_hsl_hue type_hsl_saturation type_lab_lightness 30) := by
    decide
  have h := (type_toggled_cb_row_found lib_id
    (demo_args type_hsl_hue type_hsl_saturation type_lab_lightness 30)
    (Panel.mk (demo_args type_hsl_hue type_hsl_saturation type_lab_lightness 30)
      (demo_gtk ⟨1, 0, 0⟩ ⟨0, 1, 0⟩ ⟨0, 0, 1⟩ ⟨1, 1, 1⟩)) 15 (fun _ => rfl)).1 _ hmem true
  exact ⟨hmem, h.2.2.2.2.1, h.2.2.2.2.2⟩

end Variations
